import Mathlib

/-!
# Verification of the InsightSentinel monitoring core

A shallow embedding of the risk-scoring / risk-tracking / anomaly-detection /
alert-evaluation / insight-refresh pipeline of the InsightSentinel backend
(`backend/app/services/{risk_engine,anomaly_engine,alert_engine,insights_engine}.py`),
together with proofs and refutations of the specification claims.

Modelling conventions:
* All state is the per-dataset slice of the database: every query in the source
  filters on one `dataset_id`, so the `dataset_id` columns are dropped and each
  table becomes a plain list of rows for the dataset under consideration.
* Timestamps are integers counted in minutes; `now` is passed explicitly where
  the source calls `datetime.now(timezone.utc)`.  `timedelta(minutes=m)` is `m`,
  `timedelta(hours=24)` is `1440`.
* SQL `Float` columns are modelled as exact rationals (`ℚ`); `math.isfinite`
  guards are therefore always true and Python's non-finite floats have no
  representative (noted locally wherever this matters).
* `ORDER BY created_at DESC` result lists are modelled positionally: the
  per-dataset history lists are kept newest-first and inserts prepend, which is
  exactly the order produced by the monotone `created_at` values of §3 of the
  spec ("RiskSnapshot.created_at values are monotonically increasing").
* Free-text `message` fields and JSON evidence payloads are carried nowhere:
  no code path branches on them.
-/

namespace InsightSentinel

/-- A JSON scalar stored in a preview row or loosely-typed field.  Python
`None`/`str`/`int`/`float` values; floats are modelled as exact rationals. -/
inductive JVal where
  | vnull : JVal
  | vstr : String → JVal
  | vnum : ℚ → JVal
deriving DecidableEq, Repr

/-- A preview row: a JSON object, i.e. an association list with unique keys
(`DatasetPreview.rows` elements). -/
abbrev Row := List (String × JVal)

/-- `r.get(k)`: first binding of the key (keys of a JSON object are unique). -/
def rowGet (r : Row) (k : String) : Option JVal :=
  (r.find? (fun p => p.1 == k)).map Prod.snd

/-- `datasets` row (fields read by this core). -/
structure Dataset where
  row_count : Int
deriving DecidableEq, Repr

/-- `dataset_columns` row. -/
structure DatasetColumn where
  id : Nat
  name : String
  dtype : String
  null_count : Int
  distinct_count : Int
deriving DecidableEq, Repr

/-- `column_statistics` row; all statistic columns are nullable.
`skewness` is present in the database (migration `8d0d5cb65fa1`) and read by the
services even though the ORM class omits it. -/
structure ColumnStatistics where
  column_id : Nat
  mean : Option ℚ
  std : Option ℚ
  min : Option ℚ
  max : Option ℚ
  outlier_count : Option Int
  outlier_ratio : Option ℚ
  skewness : Option ℚ
deriving DecidableEq, Repr

/-- `dataset_insights` row (free-text `message` omitted). -/
structure DatasetInsight where
  column_id : Option Nat
  severity : String
  code : String
  title : String
deriving DecidableEq, Repr

/-- Modelled from the spec: the `AlertEvent` ORM class (module
`app.models.alert_event`) is imported throughout the backend but its source file
is absent from the tree.  Spec §3 defines an alert event as `{id, dataset_id,
rule_id (nullable — null for system-generated spike alerts), severity, title,
message, payload, created_at}`, matching every construction site in the
services.  We keep the fields the engines branch on. -/
structure AlertEvent where
  rule_id : Option Nat
  severity : String
  title : String
  created_at : Int
deriving DecidableEq, Repr

/-- Rule-type-specific JSONB `config` of an alert rule, with the keys the
handlers read (`cfg.get(k)` of an absent key is `none`); values are modelled
already coerced to their expected types. -/
structure RuleConfig where
  column : Option String
  op : Option String
  threshold : Option ℚ
  scope : Option String
  code : Option String
deriving DecidableEq, Repr

/-- `alert_rules` row. -/
structure AlertRule where
  id : Nat
  name : String
  rule_type : String
  config : RuleConfig
  is_enabled : Bool
  created_at : Int
deriving DecidableEq, Repr

/-- The four sub-scores of a risk evaluation (`RiskScoreResult.breakdown`). -/
structure Breakdown where
  insight_score : Int
  stat_score : Int
  alert_score : Int
  struct_score : Int
deriving DecidableEq, Repr

/-- `dataset_risk_history` row.  The smoothing/trend columns are nullable. -/
structure DatasetRiskHistory where
  risk_score : Int
  risk_level : String
  breakdown : Breakdown
  smoothed_score : Option Int
  alpha : Option ℚ
  delta_score : Option ℚ
  accel_score : Option ℚ
  created_at : Int
deriving DecidableEq, Repr

/-- `dataset_anomaly_events` row.  The source stores `rolling_std = √variance`
and `z_score = (value - mean)/rolling_std`; to stay in exact rational
arithmetic we store the squares `rolling_var = rolling_std²` and
`z_sq = z_score²`, which determine the stored floats up to the (positive)
square root. -/
structure DatasetAnomalyEvent where
  metric : String
  value : ℚ
  rolling_mean : ℚ
  rolling_var : ℚ
  z_sq : ℚ
  window : Int
  threshold : ℚ
  direction : String
  created_at : Int
deriving DecidableEq, Repr

/-- The per-dataset database slice.  `risk_history` and `anomaly_events` are
newest-first (`ORDER BY created_at DESC`); `alert_rules` is oldest-first
(`ORDER BY created_at ASC`), the order in which the rule engine iterates. -/
structure DB where
  dataset : Option Dataset
  columns : List DatasetColumn
  stats : List ColumnStatistics
  insights : List DatasetInsight
  alert_rules : List AlertRule
  alert_events : List AlertEvent
  risk_history : List DatasetRiskHistory
  anomaly_events : List DatasetAnomalyEvent
  preview : Option (List Row)
deriving DecidableEq, Repr

/-! ## Risk engine (`app/services/risk_engine.py`) -/

/-- The whitespace characters removed by Python's `str.strip()`. -/
def isPyWS (c : Char) : Bool :=
  c == ' ' || c == '\t' || c == '\n' || c == '\r' || c == '\x0b' || c == '\x0c'

/-- Python `str.strip()`, implemented over the character list so that every
definition kernel-evaluates on concrete inputs (core `String.trim` does not). -/
def pyStrip (s : String) : String :=
  ⟨((s.data.dropWhile isPyWS).reverse.dropWhile isPyWS).reverse⟩

/-- ASCII lower-casing of one character. -/
def charLower (c : Char) : Char :=
  if 'A' ≤ c ∧ c ≤ 'Z' then Char.ofNat (c.toNat + 32) else c

/-- Python `str.lower()` (ASCII-faithful, kernel-reducible). -/
def pyLower (s : String) : String := ⟨s.data.map charLower⟩

/-- Python's binary `min` (kept as an explicit `if` so that every definition
kernel-evaluates on concrete inputs). -/
def pyMin (a b : Int) : Int := if a ≤ b then a else b

/-- Python's binary `max`. -/
def pyMax (a b : Int) : Int := if a ≤ b then b else a

/-- Python's `abs` on a float, modelled on `ℚ`. -/
def pyAbs (q : ℚ) : ℚ := if q < 0 then -q else q

/-!
Exact rational arithmetic routed through `Rat.divInt`, which the kernel
reduces on concrete inputs (the field operations of `ℚ` are `@[extern]` and
get stuck under `decide`).  Each helper agrees with the corresponding field
operation — see `ratAdd_eq` … `ratDiv_eq` below — so the embedding computes
the same rationals the Python floats idealise.
-/

/-- `a + b` on `ℚ`, kernel-reducible. -/
def ratAdd (a b : ℚ) : ℚ := Rat.divInt (a.num * b.den + b.num * a.den) (a.den * b.den)

/-- `a - b` on `ℚ`, kernel-reducible. -/
def ratSub (a b : ℚ) : ℚ := Rat.divInt (a.num * b.den - b.num * a.den) (a.den * b.den)

/-- `a * b` on `ℚ`, kernel-reducible. -/
def ratMul (a b : ℚ) : ℚ := Rat.divInt (a.num * b.num) (a.den * b.den)

/-- `a / b` on `ℚ`, kernel-reducible (`0` when `b = 0`, as in Lean's `ℚ`;
every use site below guards the denominator as the Python source does). -/
def ratDiv (a b : ℚ) : ℚ := Rat.divInt (a.num * b.den) (a.den * b.num)

/-- Python `sum(values)` over rationals. -/
def ratSum (l : List ℚ) : ℚ := l.foldl ratAdd 0

/-- Leading decimal digits of a character list, and the remainder. -/
def takeDigits : List Char → List Char × List Char
  | [] => ([], [])
  | c :: cs =>
    if c.isDigit then
      ((takeDigits cs).1.cons c, (takeDigits cs).2)
    else ([], c :: cs)

/-- Numeric value of a digit string. -/
def digitsToNat (ds : List Char) : Nat :=
  ds.foldl (fun acc c => acc * 10 + (c.toNat - 48)) 0

/-- Decimal mantissa: `\d+\.?\d*` or `\.\d+` (also what Python's `float`
accepts before the exponent). -/
def parseMantissa (cs : List Char) : Option (ℚ × List Char) :=
  match takeDigits cs with
  | (ip, r1) =>
    match r1 with
    | '.' :: r2 =>
      match takeDigits r2 with
      | (fp, r3) =>
        if ip.isEmpty && fp.isEmpty then none
        else
          some (Rat.divInt (digitsToNat ip * 10 ^ fp.length + digitsToNat fp)
                  ((10 : Nat) ^ fp.length), r3)
    | _ => if ip.isEmpty then none else some (mkRat (digitsToNat ip) 1, r1)

/-- Optional exponent `[eE][+-]?\d+`. -/
def parseExp (cs : List Char) : Option (Int × List Char) :=
  match cs with
  | 'e' :: r | 'E' :: r =>
    match (match r with
           | '+' :: t => ((1 : Int), t)
           | '-' :: t => ((-1 : Int), t)
           | t => ((1 : Int), t)) with
    | (sgn, r2) =>
      match takeDigits r2 with
      | (ds, r3) => if ds.isEmpty then none else some (sgn * (digitsToNat ds : Int), r3)
  | _ => some (0, cs)

/-- Scale a mantissa by `10^e`. -/
def applyExp (m : ℚ) (e : Int) : ℚ :=
  if e ≥ 0 then ratMul m (mkRat ((10 : Nat) ^ e.toNat) 1)
  else ratDiv m (mkRat ((10 : Nat) ^ (-e).toNat) 1)

/-- Sign, mantissa, exponent, end of input. -/
def parseFloatChars (cs : List Char) : Option ℚ :=
  match (match cs with
         | '+' :: t => ((1 : Int), t)
         | '-' :: t => ((-1 : Int), t)
         | t => ((1 : Int), t)) with
  | (sgn, r0) =>
    match parseMantissa r0 with
    | none => none
    | some (m, r1) =>
      match parseExp r1 with
      | none => none
      | some (e, r2) =>
        if r2.isEmpty then some (ratMul (mkRat sgn 1) (applyExp m e)) else none

/-- Python `float(s)` on a string: optional surrounding whitespace, sign,
decimal mantissa, optional exponent.  The special spellings "inf"/"nan"
(which `_to_float` rejects via `math.isfinite` anyway) have no representative
on `ℚ` and parse to `none` here, coinciding with that guard. -/
def pyFloatOfString (s : String) : Option ℚ :=
  parseFloatChars (((s.data.dropWhile isPyWS).reverse.dropWhile isPyWS).reverse)


namespace RiskEngine

/-- `_risk_level`. -/
def _risk_level (score : Int) : String :=
  if score ≥ 80 then "critical"
  else if score ≥ 50 then "high"
  else if score ≥ 20 then "moderate"
  else "low"

/-- The `INSIGHT_WEIGHTS` dict together with the `.get(code, 2)` default used
by `compute_dataset_risk`. -/
def INSIGHT_WEIGHTS (code : String) : Int :=
  match code with
  | "HIGH_NULL_RATIO" => 12
  | "OUTLIERS_DETECTED" => 10
  | "DATE_PARSE_FAILURE" => 10
  | "SKEWED_DISTRIBUTION" => 8
  | "MIXED_DATE_FORMATS" => 8
  | "FUTURE_DATES_IN_PREVIEW" => 6
  | "HIGH_CARDINALITY" => 6
  | "LIKELY_IDENTIFIER" => 4
  | "NUMERIC_RANGE_SUSPICIOUS" => 4
  | "POTENTIAL_NUMERIC_AS_STRING" => 10
  | "DUPLICATE_ROWS_IN_PREVIEW" => 4
  | "CONSTANT_COLUMN" => 3
  | "LOW_CARDINALITY" => 1
  | _ => 2

def MAX_INSIGHT_SCORE : Int := 40
def MAX_STAT_SCORE : Int := 30
def MAX_ALERT_SCORE : Int := 20
def MAX_STRUCT_SCORE : Int := 10

def RISK_SPIKE_WARNING_THRESHOLD : Int := 10
def RISK_SPIKE_CRITICAL_THRESHOLD : Int := 20
def RISK_SPIKE_COOLDOWN_MINUTES : Int := 60

/-- The "1) Insight Risk" loop of `compute_dataset_risk`: iterate insights,
skip blank or already-seen codes, and sum the weight table. -/
def insightScoreAux : List DatasetInsight → List String → Int
  | [], _ => 0
  | ins :: rest, seen =>
    if pyStrip ins.code = "" ∨ pyStrip ins.code ∈ seen then insightScoreAux rest seen
    else INSIGHT_WEIGHTS (pyStrip ins.code) + insightScoreAux rest (pyStrip ins.code :: seen)

/-- The `outlier_ratio` band of "2) Statistical Risk": ≥ 0.20 adds 15,
≥ 0.05 adds 8. -/
def outlierBand (r? : Option ℚ) : Int :=
  match r? with
  | some r => if r ≥ mkRat 1 5 then 15 else if r ≥ mkRat 1 20 then 8 else 0
  | none => 0

/-- The skewness band of "2) Statistical Risk": `abs` ≥ 2.0 adds 10,
≥ 1.0 adds 5. -/
def skewBand (s? : Option ℚ) : Int :=
  match s? with
  | some s => if pyAbs s ≥ 2 then 10 else if pyAbs s ≥ 1 then 5 else 0
  | none => 0

/-- The bands contributed by one statistics row. -/
def statScoreOf (st : ColumnStatistics) : Int :=
  outlierBand st.outlier_ratio + skewBand st.skewness

/-- "2) Statistical Risk": the source folds over `stats_by_col_id`, a dict
keyed by `column_id`; `column_id` carries a UNIQUE constraint so the dict is
in bijection with the query result and we fold the list directly. -/
def statScore (stats : List ColumnStatistics) : Int :=
  (stats.map statScoreOf).sum

/-- Alert events created in the trailing 24 hours
(`AlertEvent.created_at >= _now() - timedelta(hours=24)`). -/
def recentAlertsCount (now : Int) (events : List AlertEvent) : Int :=
  ((events.filter (fun e => decide (now - 1440 ≤ e.created_at))).length : Int)

/-- "3) Alert Pressure Risk": step function of the trailing-24h alert count. -/
def alertPressure (recent_alerts_count : Int) : Int :=
  if recent_alerts_count ≤ 0 then 0
  else if recent_alerts_count ≤ 2 then 5
  else if recent_alerts_count ≤ 5 then 10
  else 20

/-- Result of `compute_dataset_risk` (`dataset_id` is implicit in the slice;
the ranked `top_risks` presentation list is omitted — no claim concerns it). -/
structure RiskScoreResult where
  dataset_risk_score : Int
  risk_level : String
  breakdown : Breakdown
deriving DecidableEq, Repr

/-- `compute_dataset_risk`. -/
def compute_dataset_risk (now : Int) (db : DB) : Option RiskScoreResult :=
  match db.dataset with
  | none => none
  | some ds =>
    let insights := db.insights
    let recent_alerts_count := recentAlertsCount now db.alert_events
    let row_count := ds.row_count
    let insight_score := pyMin (insightScoreAux insights []) MAX_INSIGHT_SCORE
    let stat_score := pyMin (statScore db.stats) MAX_STAT_SCORE
    let alert_score : Int := alertPressure recent_alerts_count
    let constant_cols := (insights.filter (fun i => i.code == "CONSTANT_COLUMN")).length
    let struct_a : Int := if constant_cols ≥ 2 then 5 else 0
    let has_high_card := insights.any (fun i => i.code == "HIGH_CARDINALITY")
    let struct_b : Int :=
      if has_high_card = true ∧ 0 < row_count ∧ row_count < 200 then 5 else 0
    let struct_score := pyMin (struct_a + struct_b) MAX_STRUCT_SCORE
    let total := pyMin (insight_score + stat_score + alert_score + struct_score) 100
    some { dataset_risk_score := total
           risk_level := _risk_level total
           breakdown :=
             { insight_score := insight_score
               stat_score := stat_score
               alert_score := alert_score
               struct_score := struct_score } }

/-- `_risk_spike_cooldown_exists`: a "Risk spike detected" alert for this
dataset within the last `RISK_SPIKE_COOLDOWN_MINUTES`. -/
def _risk_spike_cooldown_exists (now : Int) (db : DB) : Bool :=
  db.alert_events.any
    (fun e => decide (now - RISK_SPIKE_COOLDOWN_MINUTES ≤ e.created_at)
      && e.title == "Risk spike detected")

/-- Return value of `track_dataset_risk`: either the "skipped" dict
(unchanged score/level) or the freshly inserted history row. -/
inductive TrackResult where
  | skipped : Int → String → Breakdown → TrackResult
  | snapshot : DatasetRiskHistory → TrackResult
deriving DecidableEq, Repr

/-- The history row the snapshot constructor builds: only `risk_score`,
`risk_level` and `breakdown` are set, so the nullable smoothing/trend columns
of a new row stay NULL. -/
def mkSnap (now : Int) (res : RiskScoreResult) : DatasetRiskHistory :=
  { risk_score := res.dataset_risk_score
    risk_level := res.risk_level
    breakdown := res.breakdown
    smoothed_score := none
    alpha := none
    delta_score := none
    accel_score := none
    created_at := now }

/-- The state after `db.add(snap); db.commit()`. -/
def pushSnap (now : Int) (db : DB) (res : RiskScoreResult) : DB :=
  { db with risk_history := mkSnap now res :: db.risk_history }

/-- The spike `AlertEvent` emitted by `track_dataset_risk`: severity
"critical" when the delta reaches `RISK_SPIKE_CRITICAL_THRESHOLD`, else
"warning". -/
def spikeEvent (now : Int) (res : RiskScoreResult) (p : DatasetRiskHistory) : AlertEvent :=
  { rule_id := none
    severity := if res.dataset_risk_score - p.risk_score ≥ RISK_SPIKE_CRITICAL_THRESHOLD
                then "critical" else "warning"
    title := "Risk spike detected"
    created_at := now }

/-- The insert-and-spike-detect tail of `track_dataset_risk` (from "Insert new
snapshot" on): prepend the snapshot, then, when a previous snapshot exists and
the score rose by at least `RISK_SPIKE_WARNING_THRESHOLD`, emit `spikeEvent`
unless the 60-minute cooldown query finds an earlier spike alert. -/
def trackInsert (now : Int) (db : DB) (res : RiskScoreResult)
    (prev : Option DatasetRiskHistory) : Option TrackResult × DB :=
  match prev with
  | none => (some (TrackResult.snapshot (mkSnap now res)), pushSnap now db res)
  | some p =>
    if res.dataset_risk_score - p.risk_score ≥ RISK_SPIKE_WARNING_THRESHOLD then
      if _risk_spike_cooldown_exists now (pushSnap now db res) then
        (some (TrackResult.snapshot (mkSnap now res)), pushSnap now db res)
      else
        (some (TrackResult.snapshot (mkSnap now res)),
          { pushSnap now db res with
              alert_events := spikeEvent now res p :: (pushSnap now db res).alert_events })
    else
      (some (TrackResult.snapshot (mkSnap now res)), pushSnap now db res)

/-- `track_dataset_risk`. -/
def track_dataset_risk (now : Int) (db : DB) : Option TrackResult × DB :=
  match compute_dataset_risk now db with
  | none => (none, db)
  | some res =>
    match db.risk_history.head? with
    | some last =>
      if last.risk_score = res.dataset_risk_score ∧ last.risk_level = res.risk_level then
        (some (TrackResult.skipped res.dataset_risk_score res.risk_level res.breakdown), db)
      else
        trackInsert now db res (some last)
    | none => trackInsert now db res none

end RiskEngine

/-! ## Anomaly engine (`app/services/anomaly_engine.py`) -/

namespace AnomalyEngine

def _COOLDOWN_MINUTES : Int := 10

/-- `_cooldown_exists`: an anomaly event for this dataset and metric within
the last `_COOLDOWN_MINUTES`. -/
def _cooldown_exists (now : Int) (db : DB) (metric : String) : Bool :=
  db.anomaly_events.any
    (fun a => a.metric == metric && decide (now - _COOLDOWN_MINUTES ≤ a.created_at))

/-- `_rolling_baseline`: population mean and *variance* of the values.  The
source returns `(mean, sqrt variance)`; in exact arithmetic we carry the
variance `= std²`, which determines the non-negative std and satisfies
`std = 0 ↔ variance = 0`. -/
def _rolling_baseline (values : List ℚ) : Option (ℚ × ℚ) :=
  match values with
  | [] => none
  | _ =>
    some (ratDiv (ratSum values) (mkRat values.length 1),
      ratDiv
        (ratSum (values.map (fun x =>
          ratMul (ratSub x (ratDiv (ratSum values) (mkRat values.length 1)))
                 (ratSub x (ratDiv (ratSum values) (mkRat values.length 1))))))
        (mkRat values.length 1))

/-- `_should_evaluate_latest_point`: only evaluate when the latest risk
snapshot is strictly newer than the last anomaly event for this metric. -/
def _should_evaluate_latest_point (db : DB) (metric : String) : Bool :=
  match db.risk_history.head? with
  | none => false
  | some latest_risk =>
    match (db.anomaly_events.filter (fun a => a.metric == metric)).head? with
    | none => true
    | some latest_anom => decide (latest_anom.created_at < latest_risk.created_at)

/-- The `LIMIT window+1 ORDER BY created_at DESC` query result, reversed into
time order (`rows = list(reversed(rows))`). -/
def anomalyRows (db : DB) (window : Nat) : List DatasetRiskHistory :=
  (db.risk_history.take (window + 1)).reverse

/-- `baseline_vals`: the scores of all but the latest row.  (`risk_score` is a
NOT NULL column, so the source's `is not None` filter keeps every row.) -/
def anomalyBaselineVals (db : DB) (window : Nat) : List ℚ :=
  (anomalyRows db window).dropLast.map (fun r => mkRat r.risk_score 1)

/-- `abs(z) < z_threshold` where `z = (value - mean)/std`: equivalently, since
`std = √var > 0` and `z_threshold > 0` are guarded,
`(value - mean)² < z_threshold² · var`. -/
def zSqLt (value mean var t : ℚ) : Bool :=
  decide (ratMul (ratSub value mean) (ratSub value mean) < ratMul (ratMul t t) var)

/-- The anomaly event the detector persists; `direction` is "spike" for
`z > 0` (⇔ `value > mean`, the std being positive) and "drop" otherwise. -/
def mkAnomalyEvent (now : Int) (metric : String) (latest : DatasetRiskHistory)
    (mean_v var_v : ℚ) (window : Int) (z_threshold : ℚ) : DatasetAnomalyEvent :=
  { metric := metric
    value := mkRat latest.risk_score 1
    rolling_mean := mean_v
    rolling_var := var_v
    z_sq := ratDiv (ratMul (ratSub (mkRat latest.risk_score 1) mean_v)
                           (ratSub (mkRat latest.risk_score 1) mean_v)) var_v
    window := window
    threshold := z_threshold
    direction := if ratSub (mkRat latest.risk_score 1) mean_v > 0 then "spike" else "drop"
    created_at := now }

/-- `detect_latest_zscore_anomaly`.  A total function: the source wraps the
body in `try/except: return 0`, and every guard below is one of its explicit
early returns (the `math.isfinite` guards on `z_threshold`, `std` and `z` are
identically true on `ℚ`, where non-finite floats have no representative). -/
def detect_latest_zscore_anomaly (now : Int) (db : DB) (metric : String)
    (window : Int) (z_threshold : ℚ) : Nat × DB :=
  if window < 5 ∨ z_threshold ≤ 0 then (0, db)
  else if metric ≠ "risk_score" then (0, db)
  else if _should_evaluate_latest_point db metric = false then (0, db)
  else if (anomalyRows db window.toNat).length < window.toNat + 1 then (0, db)
  else
    match (anomalyRows db window.toNat).getLast? with
    | none => (0, db)
    | some latest =>
      if (anomalyBaselineVals db window.toNat).length < window.toNat then (0, db)
      else
        match _rolling_baseline (anomalyBaselineVals db window.toNat) with
        | none => (0, db)
        | some (mean_v, var_v) =>
          if var_v = 0 then (0, db)
          else if zSqLt (mkRat latest.risk_score 1) mean_v var_v z_threshold then (0, db)
          else if _cooldown_exists now db metric then (0, db)
          else
            (1, { db with anomaly_events :=
                    mkAnomalyEvent now metric latest mean_v var_v window z_threshold
                      :: db.anomaly_events })

end AnomalyEngine

/-! ## Alert rule engine (`app/services/alert_engine.py`) -/

namespace AlertEngine

def _COOLDOWN_MINUTES : Int := 10

def _SUPPORTED_OPS : List String := [">", ">=", "<", "<=", "==", "!="]

def _SUPPORTED_SCOPES : List String := ["latest", "any", "mean"]

/-- `RuleContext`: the dicts `columns_by_name = {c.name: c}` and
`stats_by_col_id = {str(s.column_id): s}` are carried as their backing lists;
`dictColByName`/`dictStatByColId` below realise the dict lookup (last binding
wins, as when a comprehension meets duplicate keys). -/
structure RuleContext where
  row_count : Int
  preview_rows : List Row
  columns_by_name : List DatasetColumn
  stats_by_col_id : List ColumnStatistics
deriving DecidableEq, Repr

/-- `ctx.columns_by_name.get(name)`. -/
def dictColByName (cols : List DatasetColumn) (n : String) : Option DatasetColumn :=
  cols.reverse.find? (fun c => c.name == n)

/-- `ctx.stats_by_col_id.get(str(col.id))`. -/
def dictStatByColId (stats : List ColumnStatistics) (i : Nat) : Option ColumnStatistics :=
  stats.reverse.find? (fun s => s.column_id == i)

/-- `_to_float`: `None → None`; floats pass through (`math.isfinite` is
identically true on `ℚ`); strings via `float(str)`. -/
def _to_float (v : JVal) : Option ℚ :=
  match v with
  | JVal.vnull => none
  | JVal.vnum q => some q
  | JVal.vstr s => pyFloatOfString s

/-- `_compare`. -/
def _compare (value : ℚ) (op : String) (threshold : ℚ) : Bool :=
  if op = ">" then decide (value > threshold)
  else if op = ">=" then decide (value ≥ threshold)
  else if op = "<" then decide (value < threshold)
  else if op = "<=" then decide (value ≤ threshold)
  else if op = "==" then decide (value = threshold)
  else if op = "!=" then decide (value ≠ threshold)
  else false

/-- `_collect_values_from_preview`: the parseable values of the named column
over rows that carry the key. -/
def _collect_values_from_preview (preview_rows : List Row) (column : String) : List ℚ :=
  (preview_rows.filterMap (fun r => rowGet r column)).filterMap _to_float

/-- `_compute_value_from_preview`: last value for scope "latest", average for
scope "mean", `None` otherwise or when no value parses. -/
def _compute_value_from_preview (preview_rows : List Row) (column : String)
    (scope : String) : Option ℚ :=
  if preview_rows.isEmpty then none
  else
    match pyLower (if scope = "" then "latest" else scope),
          _collect_values_from_preview preview_rows column with
    | _, [] => none
    | "latest", v :: vs => (v :: vs).getLast?
    | "mean", v :: vs => some (ratDiv (ratSum (v :: vs)) (mkRat (v :: vs).length 1))
    | _, _ => none

/-- `_cooldown_exists`: an event for this exact rule within the last
`_COOLDOWN_MINUTES`. -/
def _cooldown_exists (now : Int) (db : DB) (rid : Nat) : Bool :=
  db.alert_events.any
    (fun e => e.rule_id == some rid && decide (now - _COOLDOWN_MINUTES ≤ e.created_at))

/-- The event every rule handler persists on a trigger: severity "warning",
title `"Rule triggered: {rule.name}"`, carrying the rule id. -/
def ruleTriggeredEvent (now : Int) (rule : AlertRule) : AlertEvent :=
  { rule_id := some rule.id
    severity := "warning"
    title := "Rule triggered: " ++ rule.name
    created_at := now }

/-- `str(cfg.get("op")).strip()` — `str(None)` is the string "None", which is
not a supported operator. -/
def cfgOp (rule : AlertRule) : String :=
  match rule.config.op with
  | some o => pyStrip o
  | none => "None"

/-- `str(scope_raw).lower() if scope_raw is not None else "latest"`. -/
def cfgScope (rule : AlertRule) : String :=
  match rule.config.scope with
  | some sc => pyLower sc
  | none => "latest"

/-- Whether a THRESHOLD rule fires, per scope.  An empty / unparseable signal
and an untriggered comparison both yield "no event", exactly as the source's
early `return 0`s and `triggered = False` do. -/
def thresholdTriggered (ctx : RuleContext) (col_name op : String) (t : ℚ)
    (scope : String) : Bool :=
  if scope = "latest" then
    match _compute_value_from_preview ctx.preview_rows col_name "latest" with
    | none => false
    | some value => _compare value op t
  else if scope = "any" then
    (_collect_values_from_preview ctx.preview_rows col_name).any
      (fun v => _compare v op t)
  else if scope = "mean" then
    match (match dictColByName ctx.columns_by_name col_name with
           | some col =>
             (match dictStatByColId ctx.stats_by_col_id col.id with
              | some st => st.mean
              | none => none)
           | none => none) with
    | some mean_v => _compare mean_v op t
    | none =>
      match _compute_value_from_preview ctx.preview_rows col_name "mean" with
      | some mean_v => _compare mean_v op t
      | none => false
  else false

/-- `_handle_threshold_rule`. -/
def _handle_threshold_rule (now : Int) (db : DB) (rule : AlertRule)
    (ctx : RuleContext) : DB × Nat :=
  match rule.config.column, rule.config.threshold with
  | some col_name0, some t =>
    if pyStrip col_name0 = "" ∨ cfgOp rule ∉ _SUPPORTED_OPS ∨
        cfgScope rule ∉ _SUPPORTED_SCOPES then (db, 0)
    else if _cooldown_exists now db rule.id then (db, 0)
    else if thresholdTriggered ctx (pyStrip col_name0) (cfgOp rule) t (cfgScope rule) then
      ({ db with alert_events := ruleTriggeredEvent now rule :: db.alert_events }, 1)
    else (db, 0)
  | _, _ => (db, 0)

/-- `_handle_null_ratio_rule`.  `null_ratio = (col.null_count or 0) /
max(ctx.row_count, 1)` (the column is NOT NULL, so `or 0` is the identity). -/
def _handle_null_ratio_rule (now : Int) (db : DB) (rule : AlertRule)
    (ctx : RuleContext) : DB × Nat :=
  match rule.config.column, rule.config.threshold with
  | some col_name0, some t =>
    if pyStrip col_name0 = "" ∨ cfgOp rule ∉ _SUPPORTED_OPS then (db, 0)
    else
      match dictColByName ctx.columns_by_name (pyStrip col_name0) with
      | none => (db, 0)
      | some col =>
        if ctx.row_count ≤ 0 then (db, 0)
        else if _compare (ratDiv (mkRat col.null_count 1) (mkRat (pyMax ctx.row_count 1) 1))
            (cfgOp rule) t = false then (db, 0)
        else if _cooldown_exists now db rule.id then (db, 0)
        else ({ db with alert_events := ruleTriggeredEvent now rule :: db.alert_events }, 1)
  | _, _ => (db, 0)

/-- `_handle_outlier_ratio_rule`. -/
def _handle_outlier_ratio_rule (now : Int) (db : DB) (rule : AlertRule)
    (ctx : RuleContext) : DB × Nat :=
  match rule.config.column, rule.config.threshold with
  | some col_name0, some t =>
    if pyStrip col_name0 = "" ∨ cfgOp rule ∉ _SUPPORTED_OPS then (db, 0)
    else
      match dictColByName ctx.columns_by_name (pyStrip col_name0) with
      | none => (db, 0)
      | some col =>
        match dictStatByColId ctx.stats_by_col_id col.id with
        | none => (db, 0)
        | some stats =>
          match stats.outlier_ratio with
          | none => (db, 0)
          | some oratio =>
            if _compare oratio (cfgOp rule) t = false then (db, 0)
            else if _cooldown_exists now db rule.id then (db, 0)
            else ({ db with alert_events := ruleTriggeredEvent now rule :: db.alert_events }, 1)
  | _, _ => (db, 0)

/-- `_handle_insight_present_rule`: fires when an insight with the configured
code currently exists for the dataset. -/
def _handle_insight_present_rule (now : Int) (db : DB) (rule : AlertRule)
    (_ctx : RuleContext) : DB × Nat :=
  match rule.config.code with
  | none => (db, 0)
  | some code0 =>
    if code0 = "" then (db, 0)
    else
      match db.insights.find? (fun i => i.code == pyStrip code0) with
      | none => (db, 0)
      | some _ =>
        if _cooldown_exists now db rule.id then (db, 0)
        else ({ db with alert_events := ruleTriggeredEvent now rule :: db.alert_events }, 1)

/-- A registered rule handler, as the engine sees it: it may raise (the
`Except.error` arm), which the evaluation loop must swallow. -/
abbrev HandlerFn := Int → DB → AlertRule → RuleContext → Except Unit (DB × Nat)

/-- The `RULE_HANDLERS` registry, as populated by the four `@register(...)`
decorators; the concrete handlers are total and never raise themselves (their
bodies catch internally). -/
def RULE_HANDLERS (rule_type : String) : Option HandlerFn :=
  match rule_type with
  | "THRESHOLD" => some (fun now db rule ctx => Except.ok (_handle_threshold_rule now db rule ctx))
  | "NULL_RATIO" => some (fun now db rule ctx => Except.ok (_handle_null_ratio_rule now db rule ctx))
  | "OUTLIER_RATIO" => some (fun now db rule ctx => Except.ok (_handle_outlier_ratio_rule now db rule ctx))
  | "INSIGHT_PRESENT" => some (fun now db rule ctx => Except.ok (_handle_insight_present_rule now db rule ctx))
  | _ => none

/-- `AlertEvalSummary`. -/
structure AlertEvalSummary where
  created_events : Nat
  evaluated_rules : Nat
  skipped_rules : Nat
  no_signal_rules : Nat
  unsupported_rules : Nat
deriving DecidableEq, Repr

/-- The all-zero summary the evaluation starts from. -/
def initSummary : AlertEvalSummary :=
  { created_events := 0, evaluated_rules := 0, skipped_rules := 0
    no_signal_rules := 0, unsupported_rules := 0 }

/-- One iteration of the rule loop of `evaluate_alerts_for_dataset`: unknown
type → unsupported; cooldown hit → skipped; else dispatch, catching a handler
exception as `no_signal` (and counting a clean zero-event result as
`no_signal` too). -/
def evalRuleStep (handlers : String → Option HandlerFn) (now : Int)
    (ctx : RuleContext) (acc : AlertEvalSummary × DB) (rule : AlertRule) :
    AlertEvalSummary × DB :=
  match handlers rule.rule_type with
  | none => ({ acc.1 with unsupported_rules := acc.1.unsupported_rules + 1 }, acc.2)
  | some h =>
    if _cooldown_exists now acc.2 rule.id then
      ({ acc.1 with skipped_rules := acc.1.skipped_rules + 1 }, acc.2)
    else
      match h now acc.2 rule ctx with
      | Except.error _ =>
        ({ acc.1 with
            evaluated_rules := acc.1.evaluated_rules + 1
            no_signal_rules := acc.1.no_signal_rules + 1 }, acc.2)
      | Except.ok (db2, created) =>
        if created = 0 then
          ({ acc.1 with
              evaluated_rules := acc.1.evaluated_rules + 1
              created_events := acc.1.created_events + created
              no_signal_rules := acc.1.no_signal_rules + 1 }, db2)
        else
          ({ acc.1 with
              evaluated_rules := acc.1.evaluated_rules + 1
              created_events := acc.1.created_events + created }, db2)

/-- The enabled rules for the dataset, in `created_at ASC` order (the list
order of the slice). -/
def enabledRules (db : DB) : List AlertRule :=
  db.alert_rules.filter (fun r => r.is_enabled)

/-- The context built once before the loop. -/
def mkRuleContext (db : DB) (dataset : Dataset) : RuleContext :=
  { row_count := dataset.row_count
    preview_rows := (match db.preview with | some rows => rows | none => [])
    columns_by_name := db.columns
    stats_by_col_id := db.stats }

/-- `evaluate_alerts_for_dataset`, parametrised by the handler registry (the
source's `RULE_HANDLERS` is an open, decorator-populated dict).  The final
`db.commit()` is a no-op in the model. -/
def evaluate_alerts_core (handlers : String → Option HandlerFn) (now : Int)
    (db : DB) : AlertEvalSummary × DB :=
  if (enabledRules db).isEmpty then (initSummary, db)
  else
    match db.dataset with
    | none => (initSummary, db)
    | some dataset =>
      (enabledRules db).foldl (evalRuleStep handlers now (mkRuleContext db dataset))
        (initSummary, db)

/-- `evaluate_alerts_for_dataset`, with the four registered handlers. -/
def evaluate_alerts_for_dataset (now : Int) (db : DB) : AlertEvalSummary × DB :=
  evaluate_alerts_core RULE_HANDLERS now db

end AlertEngine

/-! ## Insights engine (`app/services/insights_engine.py`)

The two date functions `_try_parse_datetime` and `_date_family` lean on
Python's `datetime` parsing; they are taken as parameters (`parseDT`,
`dateFam`) of the refresh: every claim under verification holds for all
parsers, and concrete witnesses instantiate them.  Timestamps are the integer
minutes of the global convention (so `now.replace(microsecond=0)` is the
identity). -/

namespace InsightsEngine

/-- Substring test over character lists (Python's `k in n` on strings). -/
def isInfixChars : List Char → List Char → Bool
  | needle, [] => needle.isEmpty
  | needle, c :: rest => needle.isPrefixOf (c :: rest) || isInfixChars needle rest

/-- `needle in hay` for strings. -/
def strContains (hay needle : String) : Bool := isInfixChars needle.data hay.data

/-- `_is_date_like_name`. -/
def _is_date_like_name (name : String) : Bool :=
  strContains (pyLower (pyStrip name)) "date"
    || strContains (pyLower (pyStrip name)) "time"
    || strContains (pyLower (pyStrip name)) "timestamp"
    || strContains (pyLower (pyStrip name)) "datetime"

/-- `_is_categorical_dtype`. -/
def _is_categorical_dtype (dtype : String) : Bool :=
  ["object", "bool", "category", "string", "varchar", "text", "char"].any
    (fun k => strContains (pyLower dtype) k)

/-- Python `str(v)`: "None" for nulls, the string itself, or the numeric
repr (approximated by the canonical rational notation; injective, and never
reached by the witnesses, whose preview cells are strings). -/
def valStr : JVal → String
  | JVal.vnull => "None"
  | JVal.vstr s => s
  | JVal.vnum q => toString q

/-- `v is not None and str(v).strip() != ""`. -/
def nonBlankVal (v : JVal) : Bool :=
  match v with
  | JVal.vnull => false
  | _ => !(pyStrip (valStr v) == "")

/-- Remove the separators and currency/percent symbols `_to_float_like`
strips: `","`, `"%"`, `"€"`, `"$"`, `"£"`. -/
def stripNumSyms (s : String) : String :=
  ⟨s.data.filter (fun c =>
    !(c == ',' || c == '%' || c == '€' || c == '$' || c == '£'))⟩

/-- Exponent digits of `_NUM_RE`: `[+\-]?\d+` followed by `\s*$`. -/
def expDigitsOk (r : List Char) : Bool :=
  match (match r with
         | '+' :: t => t
         | '-' :: t => t
         | t => t) with
  | r2 =>
    match takeDigits r2 with
    | (ds, r3) => !ds.isEmpty && r3.all isPyWS

/-- Optional `[eE]` exponent of `_NUM_RE`, then `\s*$`. -/
def expTailOk : List Char → Bool
  | 'e' :: r => expDigitsOk r
  | 'E' :: r => expDigitsOk r
  | r => r.all isPyWS

/-- The `_NUM_RE` regex `^[\s\+\-]?(?:\d+\.?\d*|\.\d+)(?:[eE][\+\-]?\d+)?\s*$`
(one optional whitespace-or-sign character, a decimal mantissa, an optional
exponent, trailing whitespace; the alternations are first-character-disjoint,
so the greedy reading is exact). -/
def numReMatch (cs : List Char) : Bool :=
  match (match cs with
         | c :: rest => if isPyWS c || c == '+' || c == '-' then rest else c :: rest
         | [] => ([] : List Char)) with
  | cs1 =>
    match takeDigits cs1 with
    | (ip, r1) =>
      if ip.isEmpty then
        match r1 with
        | '.' :: r2 =>
          match takeDigits r2 with
          | (fp, r3) => !fp.isEmpty && expTailOk r3
        | _ => false
      else
        match r1 with
        | '.' :: r2 =>
          match takeDigits r2 with
          | (_, r3) => expTailOk r3
        | _ => expTailOk r1

/-- `_to_float_like`: tolerant numeric parse — numbers pass through (`ℚ` has
no NaN), strings are stripped of separators/currency and must match
`_NUM_RE`.  (A float-overflowing literal like "1e999" is `None` in the source
via the non-finite check and a huge rational here; no claim reaches that
regime.) -/
def _to_float_like (v : JVal) : Option ℚ :=
  match v with
  | JVal.vnull => none
  | JVal.vnum q => some q
  | JVal.vstr s0 =>
    if pyStrip s0 = "" then none
    else
      if numReMatch (stripNumSyms (pyStrip s0)).data then
        pyFloatOfString (stripNumSyms (pyStrip s0))
      else none

/-- `[r.get(col.name) for r in preview_rows if isinstance(r, dict) and
col.name in r]`. -/
def colCells (previewRows : List Row) (name : String) : List JVal :=
  previewRows.filterMap (fun r => rowGet r name)

/-- The non-null, non-blank values of a column over the preview. -/
def nonNullCells (previewRows : List Row) (name : String) : List JVal :=
  (colCells previewRows name).filter nonBlankVal

/-- Whether the POTENTIAL_NUMERIC_AS_STRING heuristic flags the column:
categorical dtype, non-date-like name, at least 3 non-null preview values of
which ≥ 80% parse numerically. -/
def numericAsStringFlag (previewRows : List Row) (col : DatasetColumn) : Bool :=
  !previewRows.isEmpty
    && _is_categorical_dtype col.dtype
    && !(_is_date_like_name col.name)
    && decide (3 ≤ (nonNullCells previewRows col.name).length)
    && decide (mkRat 4 5 ≤
         ratDiv (mkRat ((nonNullCells previewRows col.name).filterMap _to_float_like).length 1)
                (mkRat (nonNullCells previewRows col.name).length 1))

/-- An insight row (`message` omitted, as in the record model). -/
def mkInsight (colId : Option Nat) (severity code title : String) : DatasetInsight :=
  { column_id := colId, severity := severity, code := code, title := title }

/-- The HIGH_NULL_RATIO rule: `null_count/row_count ≥ 0.2`, critical from
0.5. -/
def nullRatioBlock (rowCount : Int) (col : DatasetColumn) : List DatasetInsight :=
  if 0 < rowCount then
    if mkRat 1 5 ≤ ratDiv (mkRat col.null_count 1) (mkRat rowCount 1) then
      [mkInsight (some col.id)
        (if mkRat 1 2 ≤ ratDiv (mkRat col.null_count 1) (mkRat rowCount 1)
         then "critical" else "warning")
        "HIGH_NULL_RATIO" "High missing values"]
    else []
  else []

/-- The CONSTANT_COLUMN rule: `distinct_count ≤ 1` with rows present. -/
def constantColumnBlock (rowCount : Int) (col : DatasetColumn) : List DatasetInsight :=
  if 0 < rowCount ∧ col.distinct_count ≤ 1 then
    [mkInsight (some col.id) "warning" "CONSTANT_COLUMN" "Constant column"]
  else []

/-- The POTENTIAL_NUMERIC_AS_STRING emission. -/
def numAsStrBlock (previewRows : List Row) (col : DatasetColumn) : List DatasetInsight :=
  if numericAsStringFlag previewRows col then
    [mkInsight (some col.id) "warning" "POTENTIAL_NUMERIC_AS_STRING"
      "Numeric values stored as text"]
  else []

/-- The LOW_CARDINALITY rule — the only cardinality rule gated on the column
NOT being flagged numeric-as-string. -/
def lowCardBlock (rowCount : Int) (previewRows : List Row) (col : DatasetColumn) :
    List DatasetInsight :=
  if 0 < rowCount ∧ numericAsStringFlag previewRows col = false then
    if _is_categorical_dtype col.dtype = true ∧ _is_date_like_name col.name = false ∧
        1 < col.distinct_count ∧ col.distinct_count ≤ 5 then
      [mkInsight (some col.id) "info" "LOW_CARDINALITY" "Low cardinality"]
    else []
  else []

/-- The HIGH_CARDINALITY rule (no numeric-as-string condition in the
source). -/
def highCardBlock (rowCount : Int) (col : DatasetColumn) : List DatasetInsight :=
  if 0 < rowCount ∧ _is_categorical_dtype col.dtype = true ∧
      _is_date_like_name col.name = false then
    if 50 ≤ rowCount ∧ 50 ≤ col.distinct_count ∧
        mkRat 1 2 ≤ ratDiv (mkRat col.distinct_count 1) (mkRat rowCount 1) then
      [mkInsight (some col.id) "warning" "HIGH_CARDINALITY"
        "High cardinality categorical column"]
    else []
  else []

/-- The LIKELY_IDENTIFIER rule (same outer gate as HIGH_CARDINALITY, ratio
0.95). -/
def likelyIdBlock (rowCount : Int) (col : DatasetColumn) : List DatasetInsight :=
  if 0 < rowCount ∧ _is_categorical_dtype col.dtype = true ∧
      _is_date_like_name col.name = false then
    if 50 ≤ rowCount ∧ 50 ≤ col.distinct_count ∧
        mkRat 19 20 ≤ ratDiv (mkRat col.distinct_count 1) (mkRat rowCount 1) then
      [mkInsight (some col.id) "warning" "LIKELY_IDENTIFIER" "Likely identifier column"]
    else []
  else []

/-- `ok`: the parseable date values of the column. -/
def dateOks (parseDT : String → Option Int) (previewRows : List Row)
    (col : DatasetColumn) : List Int :=
  (nonNullCells previewRows col.name).filterMap (fun v => parseDT (valStr v))

/-- The parse ratio `len(ok)/len(non_null)`. -/
def dateRatio (parseDT : String → Option Int) (previewRows : List Row)
    (col : DatasetColumn) : ℚ :=
  ratDiv (mkRat (dateOks parseDT previewRows col).length 1)
         (mkRat (nonNullCells previewRows col.name).length 1)

/-- The recognised format families of the column's values. -/
def dateFams (dateFam : String → Option String) (previewRows : List Row)
    (col : DatasetColumn) : List String :=
  (nonNullCells previewRows col.name).filterMap (fun v =>
    match dateFam (valStr v) with
    | some f => if f = "UNKNOWN" then none else some f
    | none => none)

/-- `strong_families`: families occurring at least twice. -/
def strongFams (dateFam : String → Option String) (previewRows : List Row)
    (col : DatasetColumn) : List String :=
  (dateFams dateFam previewRows col).dedup.filter
    (fun f => decide (2 ≤ (dateFams dateFam previewRows col).count f))

/-- The date/time quality rules (DATE_PARSE_FAILURE, MIXED_DATE_FORMATS,
FUTURE_DATES_IN_PREVIEW) for date-named columns with ≥ 5 non-null preview
values. -/
def dateBlock (parseDT : String → Option Int) (dateFam : String → Option String)
    (now : Int) (previewRows : List Row) (col : DatasetColumn) : List DatasetInsight :=
  if previewRows ≠ [] ∧ _is_date_like_name col.name = true then
    if 5 ≤ (nonNullCells previewRows col.name).length then
      (if dateRatio parseDT previewRows col < mkRat 4 5 then
         [mkInsight (some col.id) "warning" "DATE_PARSE_FAILURE" "Date/time parse failures"]
       else [])
      ++ (if 2 ≤ (strongFams dateFam previewRows col).length ∧
              mkRat 4 5 ≤ dateRatio parseDT previewRows col then
            [mkInsight (some col.id) "warning" "MIXED_DATE_FORMATS" "Mixed date formats detected"]
          else [])
      ++ (if (dateOks parseDT previewRows col).any (fun dt => decide (now < dt)) = true ∧
              mkRat 4 5 ≤ dateRatio parseDT previewRows col then
            [mkInsight (some col.id) "info" "FUTURE_DATES_IN_PREVIEW" "Future dates found (preview)"]
          else [])
    else []
  else []

/-- The statistics-based rules (OUTLIERS_DETECTED, SKEWED_DISTRIBUTION,
NUMERIC_RANGE_SUSPICIOUS), via the column's one-to-one statistics row. -/
def statsBlock (rowCount : Int) (stats : List ColumnStatistics)
    (col : DatasetColumn) : List DatasetInsight :=
  match stats.find? (fun s => s.column_id == col.id) with
  | none => []
  | some st =>
    (match st.outlier_ratio with
     | some orr =>
       if mkRat 1 20 ≤ orr then
         [mkInsight (some col.id) (if mkRat 1 5 ≤ orr then "critical" else "warning")
           "OUTLIERS_DETECTED" "Outliers detected"]
       else []
     | none => [])
    ++ (match st.skewness with
        | some sk =>
          if 50 ≤ rowCount then
            if 2 ≤ pyAbs sk then
              [mkInsight (some col.id) "warning" "SKEWED_DISTRIBUTION" "Skewed distribution"]
            else if 1 ≤ pyAbs sk then
              [mkInsight (some col.id) "info" "SKEWED_DISTRIBUTION" "Skewed distribution"]
            else []
          else []
        | none => [])
    ++ (match st.min, st.max with
        | some mn, some mx =>
          if mn = mx then
            [mkInsight (some col.id) "info" "NUMERIC_RANGE_SUSPICIOUS" "Zero numeric range"]
          else if mx ≤ 0 ∧ mn < 0 then
            [mkInsight (some col.id) "warning" "NUMERIC_RANGE_SUSPICIOUS" "All values non-positive"]
          else []
        | _, _ => [])

/-- The per-column portion of `refresh_insights`, in emission order. -/
def columnInsights (parseDT : String → Option Int) (dateFam : String → Option String)
    (now : Int) (rowCount : Int) (previewRows : List Row)
    (stats : List ColumnStatistics) (col : DatasetColumn) : List DatasetInsight :=
  nullRatioBlock rowCount col
  ++ constantColumnBlock rowCount col
  ++ numAsStrBlock previewRows col
  ++ lowCardBlock rowCount previewRows col
  ++ highCardBlock rowCount col
  ++ likelyIdBlock rowCount col
  ++ dateBlock parseDT dateFam now previewRows col
  ++ statsBlock rowCount stats col

/-- Lexicographic `≤` on strings (character-list order). -/
def chListLe : List Char → List Char → Bool
  | [], _ => true
  | _ :: _, [] => false
  | a :: as, b :: bs => if a < b then true else if b < a then false else chListLe as bs

/-- `_canonical_row`: `json.dumps(r, sort_keys=True)` — two rows dump equally
iff their key-sorted association lists agree, so the canonical form is the
key-sorted row, built by insertion. -/
def insertByKey (p : String × JVal) : Row → Row
  | [] => [p]
  | q :: rest =>
    if chListLe p.1.data q.1.data then p :: q :: rest
    else q :: insertByKey p rest

/-- Insertion sort of a row by key. -/
def sortByKey : Row → Row
  | [] => []
  | p :: rest => insertByKey p (sortByKey rest)

/-- Duplicate count over canonical rows (`seen` set of the source loop). -/
def dupCountAux : List Row → List Row → Nat
  | [], _ => 0
  | r :: rest, seen =>
    if seen.any (fun x => decide (x = sortByKey r)) then 1 + dupCountAux rest seen
    else dupCountAux rest (sortByKey r :: seen)

/-- `dup`: how many preview rows repeat an earlier row. -/
def dupCount (rows : List Row) : Nat := dupCountAux rows []

/-- The non-blank stringified values of key `k` across the preview. -/
def constVals (rows : List Row) (k : String) : List String :=
  ((rows.filterMap (fun r => rowGet r k)).filter nonBlankVal).map valStr

/-- "Constant dimensions": keys of the first row with exactly one distinct
non-blank value across the preview. -/
def previewConstantCols (rows : List Row) : Nat :=
  match rows with
  | [] => 0
  | r0 :: _ =>
    ((r0.map Prod.fst).filter (fun k =>
      decide ((constVals rows k).dedup.length ≤ 1) && !(constVals rows k).isEmpty)).length

/-- The DUPLICATE_ROWS_IN_PREVIEW rule: severity info when ≥ 2 columns look
constant (duplication may be expected) or the ratio is below 5%, else
warning. -/
def duplicateRowsBlock (previewRows : List Row) : List DatasetInsight :=
  if previewRows ≠ [] then
    if 0 < dupCount previewRows ∧ 0 < previewRows.length then
      [mkInsight none
        (if 2 ≤ previewConstantCols previewRows then "info"
         else if ratDiv (mkRat (dupCount previewRows) 1) (mkRat previewRows.length 1)
             < mkRat 1 20 then "info"
         else "warning")
        "DUPLICATE_ROWS_IN_PREVIEW" "Duplicate rows detected (preview)"]
    else []
  else []

/-- The EMPTY_PREVIEW rule. -/
def emptyPreviewBlock (previewRows : List Row) : List DatasetInsight :=
  if previewRows = [] then
    [mkInsight none "warning" "EMPTY_PREVIEW" "No preview available"]
  else []

/-- The full recomputation of `refresh_insights`: dataset-level rules, then
the per-column rules in column order. -/
def computeInsights (parseDT : String → Option Int) (dateFam : String → Option String)
    (now : Int) (rowCount : Int) (previewRows : List Row)
    (columns : List DatasetColumn) (stats : List ColumnStatistics) : List DatasetInsight :=
  duplicateRowsBlock previewRows
  ++ emptyPreviewBlock previewRows
  ++ columns.flatMap (columnInsights parseDT dateFam now rowCount previewRows stats)

/-- `preview.rows if preview else []`. -/
def previewRowsOf (db : DB) : List Row :=
  match db.preview with
  | some rows => rows
  | none => []

/-- The insight set `refresh_insights` recomputes for a present dataset, with
`row_count = max(int(dataset.row_count or 0), 0)`. -/
def refreshedInsights (parseDT : String → Option Int) (dateFam : String → Option String)
    (now : Int) (db : DB) (dataset : Dataset) : List DatasetInsight :=
  computeInsights parseDT dateFam now (pyMax dataset.row_count 0)
    (previewRowsOf db) db.columns db.stats

/-- `refresh_insights`: missing dataset → `[]` with nothing touched;
otherwise delete all stored insights for the dataset, recompute, persist and
return the new set. -/
def refresh_insights (parseDT : String → Option Int) (dateFam : String → Option String)
    (now : Int) (db : DB) : DB × List DatasetInsight :=
  match db.dataset with
  | none => (db, [])
  | some dataset =>
    ({ db with insights := refreshedInsights parseDT dateFam now db dataset },
     refreshedInsights parseDT dateFam now db dataset)

end InsightsEngine

/-! ## Concrete per-dataset states used by witnesses and counterexamples -/

open RiskEngine

/-- Scenario state of spec §8: one `HIGH_NULL_RATIO` insight (weight 12), one
column whose statistics have `outlier_ratio = 0.25` (stat band 15), no alerts,
no structural findings. -/
def dbC2 : DB :=
  { dataset := some { row_count := 100 }
    columns := [{ id := 1, name := "amount", dtype := "float64", null_count := 30, distinct_count := 10 }]
    stats := [{ column_id := 1, mean := none, std := none, min := none, max := none
                outlier_count := some 25, outlier_ratio := some (mkRat 1 4), skewness := none }]
    insights := [{ column_id := some 1, severity := "warning"
                   code := "HIGH_NULL_RATIO", title := "High missing values" }]
    alert_rules := []
    alert_events := []
    risk_history := []
    anomaly_events := []
    preview := none }

/-- The risk result `compute_dataset_risk` produces on `dbC2`:
12 + 15 + 0 + 0 = 27, level "moderate". -/
def resC2 : RiskScoreResult :=
  { dataset_risk_score := 27
    risk_level := "moderate"
    breakdown := { insight_score := 12, stat_score := 15, alert_score := 0, struct_score := 0 } }

/-- The snapshot `track_dataset_risk` inserts on `dbC2` (no prior snapshot):
all smoothing/trend columns stay NULL. -/
def snapC1 : DatasetRiskHistory :=
  { risk_score := 27
    risk_level := "moderate"
    breakdown := { insight_score := 12, stat_score := 15, alert_score := 0, struct_score := 0 }
    smoothed_score := none
    alpha := none
    delta_score := none
    accel_score := none
    created_at := 0 }

/-- The state left behind by `track_dataset_risk 0 dbC2`. -/
def dbC1after : DB := (track_dataset_risk 0 dbC2).2

/-- `dbC2` with a latest snapshot already carrying the score/level that
`compute_dataset_risk` reproduces — the skip scenario of claim C3. -/
def dbC3 : DB := { dbC2 with risk_history := [snapC1] }

/-- Prior snapshot with score 40 for the spike scenario of claim C4. -/
def snap40 : DatasetRiskHistory :=
  { risk_score := 40
    risk_level := "moderate"
    breakdown := { insight_score := 40, stat_score := 0, alert_score := 0, struct_score := 0 }
    smoothed_score := none
    alpha := none
    delta_score := none
    accel_score := none
    created_at := -100 }

/-- Spike scenario of spec §8: prior snapshot score 40, fresh score 65
(insight 12+10+10+10 capped 40, stat 15+10 = 25), delta 25 ≥ 20. -/
def dbC4 : DB :=
  { dataset := some { row_count := 100 }
    columns := [{ id := 1, name := "amount", dtype := "float64", null_count := 30, distinct_count := 10 }]
    stats := [{ column_id := 1, mean := none, std := none, min := none, max := none
                outlier_count := some 25, outlier_ratio := some (mkRat 1 4), skewness := some (mkRat 5 2) }]
    insights :=
      [{ column_id := some 1, severity := "warning", code := "HIGH_NULL_RATIO", title := "High missing values" },
       { column_id := some 1, severity := "warning", code := "OUTLIERS_DETECTED", title := "Outliers detected" },
       { column_id := some 1, severity := "warning", code := "DATE_PARSE_FAILURE", title := "Date parse failures" },
       { column_id := some 1, severity := "warning", code := "POTENTIAL_NUMERIC_AS_STRING", title := "Numeric values stored as text" }]
    alert_rules := []
    alert_events := []
    risk_history := [snap40]
    anomaly_events := []
    preview := none }

/-- The risk result on `dbC4`: min(42,40) + 25 = 65, level "high". -/
def resC4 : RiskScoreResult :=
  { dataset_risk_score := 65
    risk_level := "high"
    breakdown := { insight_score := 40, stat_score := 25, alert_score := 0, struct_score := 0 } }

/-- A bare history row used to build anomaly-detector scenarios. -/
def histSnap (score : Int) (t : Int) : DatasetRiskHistory :=
  { risk_score := score
    risk_level := "low"
    breakdown := { insight_score := 0, stat_score := 0, alert_score := 0, struct_score := 0 }
    smoothed_score := none
    alpha := none
    delta_score := none
    accel_score := none
    created_at := t }

/-- §8 anomaly scenario: latest snapshot 80 on top of 20 identical baseline
scores 50 (zero variance), newest first. -/
def dbC5 : DB :=
  { dataset := some { row_count := 100 }
    columns := []
    stats := []
    insights := []
    alert_rules := []
    alert_events := []
    risk_history := histSnap 80 21 :: (List.range 20).map (fun i => histSnap 50 (20 - (i : Int)))
    anomaly_events := []
    preview := none }

/-- Only three snapshots: fewer than `window + 1 = 21`. -/
def dbC5small : DB :=
  { dbC5 with risk_history := [histSnap 80 3, histSnap 50 2, histSnap 50 1] }

/-- A config with no keys set. -/
def emptyConfig : RuleConfig :=
  { column := none, op := none, threshold := none, scope := none, code := none }

/-- An enabled THRESHOLD rule on column "amount". -/
def ruleC6 : AlertRule :=
  { id := 7
    name := "high amount"
    rule_type := "THRESHOLD"
    config := { column := some "amount", op := some ">", threshold := some (mkRat 100 1)
                scope := some "latest", code := none }
    is_enabled := true
    created_at := 0 }

/-- An alert event for `ruleC6` fired 5 minutes ago — inside the 10-minute
cooldown at `now = 0`. -/
def evC6 : AlertEvent :=
  { rule_id := some 7
    severity := "warning"
    title := "Rule triggered: high amount"
    created_at := -5 }

/-- Cooldown scenario: the one enabled rule already fired recently. -/
def dbC6 : DB :=
  { dataset := some { row_count := 100 }
    columns := []
    stats := []
    insights := []
    alert_rules := [ruleC6]
    alert_events := [evC6]
    risk_history := []
    anomaly_events := []
    preview := none }

/-- A handler that always raises. -/
def failingHandler : AlertEngine.HandlerFn := fun _ _ _ _ => Except.error ()

/-- The registered handlers plus one that raises, exercising the engine's
exception handling. -/
def failingHandlers (t : String) : Option AlertEngine.HandlerFn :=
  match t with
  | "FAILING" => some failingHandler
  | _ => AlertEngine.RULE_HANDLERS t

/-- An enabled rule dispatched to the raising handler. -/
def ruleC7fail : AlertRule :=
  { id := 8, name := "boom", rule_type := "FAILING", config := emptyConfig
    is_enabled := true, created_at := 1 }

/-- An enabled rule of a type nobody registered. -/
def ruleC7unsup : AlertRule :=
  { id := 9, name := "mystery", rule_type := "DRIFT", config := emptyConfig
    is_enabled := true, created_at := 2 }

/-- Three enabled rules: a clean THRESHOLD (no preview → no signal), a raising
one, an unsupported one; no events, so no cooldowns. -/
def dbC7 : DB :=
  { dataset := some { row_count := 100 }
    columns := []
    stats := []
    insights := []
    alert_rules := [ruleC6, ruleC7fail, ruleC7unsup]
    alert_events := []
    risk_history := []
    anomaly_events := []
    preview := none }

/-- The context the engine builds over `dbC7`. -/
def ctxC7 : AlertEngine.RuleContext :=
  AlertEngine.mkRuleContext dbC7 { row_count := 100 }

/-- A high-cardinality categorical column whose stringly-numeric preview
values flag it numeric-as-string. -/
def colC8 : DatasetColumn :=
  { id := 3, name := "code", dtype := "object", null_count := 0, distinct_count := 100 }

/-- State for the cardinality-gating scenario: three numeric-string preview
values for column "code", 100 rows, 100 distinct values. -/
def dbC8 : DB :=
  { dataset := some { row_count := 100 }
    columns := [colC8]
    stats := []
    insights := []
    alert_rules := []
    alert_events := []
    risk_history := []
    anomaly_events := []
    preview := some [[("code", JVal.vstr "123")], [("code", JVal.vstr "456")],
                     [("code", JVal.vstr "789")]] }

/-! ## Theorems -/

/-- Membership in `if p then [a] else []` forces the element and the
condition. -/
theorem mem_ite_singleton {α : Type} {i a : α} {p : Prop} [Decidable p]
    (h : i ∈ (if p then [a] else [])) : i = a ∧ p := by
  split at h
  · exact ⟨List.mem_singleton.mp h, by assumption⟩
  · exact absurd h (List.not_mem_nil _)


namespace RiskEngine

theorem INSIGHT_WEIGHTS_nonneg (code : String) : 0 ≤ INSIGHT_WEIGHTS code := by
  unfold INSIGHT_WEIGHTS
  split <;> omega

theorem insightScoreAux_nonneg (l : List DatasetInsight) (seen : List String) :
    0 ≤ insightScoreAux l seen := by
  induction l generalizing seen with
  | nil => simp [insightScoreAux]
  | cons ins rest ih =>
    unfold insightScoreAux
    split
    · exact ih seen
    · have := INSIGHT_WEIGHTS_nonneg (pyStrip ins.code)
      have := ih (pyStrip ins.code :: seen)
      omega

theorem outlierBand_nonneg (r? : Option ℚ) : 0 ≤ outlierBand r? := by
  rcases r? with _ | r
  · simp [outlierBand]
  · simp only [outlierBand]
    split_ifs <;> norm_num

theorem skewBand_nonneg (s? : Option ℚ) : 0 ≤ skewBand s? := by
  rcases s? with _ | s
  · simp [skewBand]
  · simp only [skewBand]
    split_ifs <;> norm_num

theorem statScoreOf_nonneg (st : ColumnStatistics) : 0 ≤ statScoreOf st := by
  unfold statScoreOf
  have := outlierBand_nonneg st.outlier_ratio
  have := skewBand_nonneg st.skewness
  omega

theorem statScore_nonneg (stats : List ColumnStatistics) : 0 ≤ statScore stats := by
  unfold statScore
  apply List.sum_nonneg
  intro x hx
  obtain ⟨st, _, rfl⟩ := List.mem_map.mp hx
  exact statScoreOf_nonneg st

theorem alertPressure_nonneg (r : Int) : 0 ≤ alertPressure r := by
  unfold alertPressure
  split_ifs <;> omega

theorem pyMin_nonneg (a b : Int) (ha : 0 ≤ a) (hb : 0 ≤ b) : 0 ≤ pyMin a b := by
  unfold pyMin
  split <;> omega

theorem pyMin_le_right (a b : Int) : pyMin a b ≤ b := by
  unfold pyMin
  split <;> omega

/-- C2: `compute_dataset_risk` always returns an integer score in [0,100] and
the returned level is exactly `_risk_level` applied to that score (≥80
critical, ≥50 high, ≥20 moderate, else low). -/
theorem C2_compute_risk_bounds (now : Int) (db : DB) (res : RiskScoreResult)
    (h : compute_dataset_risk now db = some res) :
    0 ≤ res.dataset_risk_score ∧ res.dataset_risk_score ≤ 100 ∧
      res.risk_level = _risk_level res.dataset_risk_score := by
  unfold compute_dataset_risk at h
  cases hds : db.dataset with
  | none => rw [hds] at h; exact absurd h (by simp)
  | some ds =>
    rw [hds] at h
    simp only [Option.some.injEq] at h
    subst h
    have h1 : 0 ≤ insightScoreAux db.insights [] := insightScoreAux_nonneg _ _
    have h2 : 0 ≤ statScore db.stats := statScore_nonneg _
    refine ⟨pyMin_nonneg _ _ ?_ (by norm_num), pyMin_le_right _ _, rfl⟩
    have h3 := alertPressure_nonneg (recentAlertsCount now db.alert_events)
    have h4 := pyMin_nonneg _ _ h1 (show (0:Int) ≤ MAX_INSIGHT_SCORE by norm_num [MAX_INSIGHT_SCORE])
    have h5 := pyMin_nonneg _ _ h2 (show (0:Int) ≤ MAX_STAT_SCORE by norm_num [MAX_STAT_SCORE])
    have h6 : (0:Int) ≤
        (if (db.insights.filter (fun i => i.code == "CONSTANT_COLUMN")).length ≥ 2 then 5 else 0) := by
      split <;> omega
    have h7 : (0:Int) ≤
        (if (db.insights.any fun i => i.code == "HIGH_CARDINALITY") = true ∧
            0 < ds.row_count ∧ ds.row_count < 200 then 5 else 0) := by
      split <;> omega
    have h8 := pyMin_nonneg _ _ (by omega : (0:Int) ≤
        (if (db.insights.filter (fun i => i.code == "CONSTANT_COLUMN")).length ≥ 2 then 5 else 0) +
        (if (db.insights.any fun i => i.code == "HIGH_CARDINALITY") = true ∧
            0 < ds.row_count ∧ ds.row_count < 200 then 5 else 0))
      (show (0:Int) ≤ MAX_STRUCT_SCORE by norm_num [MAX_STRUCT_SCORE])
    omega

/-- C2 witness: the §8 scenario — insight weight 12 plus statistical band 15
with no alerts and no structural issues gives score 27, level "moderate". -/
theorem C2_witness :
    0 ≤ resC2.dataset_risk_score ∧ resC2.dataset_risk_score ≤ 100 ∧
      resC2.risk_level = _risk_level resC2.dataset_risk_score :=
  C2_compute_risk_bounds 0 dbC2 resC2 (by decide)

/-- Every branch of `trackInsert` returns the freshly built snapshot and
prepends it to the history. -/
theorem trackInsert_shape (now : Int) (db : DB) (res : RiskScoreResult)
    (prev : Option DatasetRiskHistory) :
    (trackInsert now db res prev).1 = some (TrackResult.snapshot (mkSnap now res)) ∧
      (trackInsert now db res prev).2.risk_history = mkSnap now res :: db.risk_history := by
  cases prev with
  | none => exact ⟨rfl, rfl⟩
  | some p =>
    dsimp only [trackInsert]
    split_ifs <;> exact ⟨rfl, rfl⟩

/-- Inversion of the insert path of `track_dataset_risk`: whenever a snapshot
is returned, it is the row that was prepended to the history, and its
smoothing/trend columns were left NULL by the constructor. -/
theorem track_snapshot_inv (now : Int) (db db2 : DB) (snap : DatasetRiskHistory)
    (h : track_dataset_risk now db = (some (TrackResult.snapshot snap), db2)) :
    db2.risk_history = snap :: db.risk_history ∧
      snap.smoothed_score = none ∧ snap.alpha = none ∧
      snap.delta_score = none ∧ snap.accel_score = none := by
  have key : ∀ res prev, trackInsert now db res prev = (some (TrackResult.snapshot snap), db2) →
      db2.risk_history = snap :: db.risk_history ∧
        snap.smoothed_score = none ∧ snap.alpha = none ∧
        snap.delta_score = none ∧ snap.accel_score = none := by
    intro res prev hti
    have hs := trackInsert_shape now db res prev
    rw [hti] at hs
    simp only [Option.some.injEq, TrackResult.snapshot.injEq] at hs
    obtain ⟨rfl, hhist⟩ := hs
    exact ⟨hhist, rfl, rfl, rfl, rfl⟩
  unfold track_dataset_risk at h
  cases hc : compute_dataset_risk now db with
  | none => rw [hc] at h; exact absurd h (by simp)
  | some res =>
    rw [hc] at h
    cases hl : db.risk_history.head? with
    | none =>
      rw [hl] at h
      exact key res none h
    | some last =>
      rw [hl] at h
      dsimp only at h
      split at h
      · exact absurd h (by simp)
      · exact key res (some last) h

/-- C1 (amended): `track_dataset_risk` never populates the smoothing/trend
columns — every inserted snapshot has `smoothed_score`, `alpha`, `delta_score`
and `accel_score` NULL, whether or not a prior snapshot exists.  (The claimed
recurrence `smoothed = round(alpha*score + (1-alpha)*prev_smoothed)` appears
nowhere in `track_dataset_risk`; the columns exist in the table and are read
by the API routes, but no code writes them.) -/
theorem C1_track_leaves_smoothing_null (now : Int) (db db2 : DB)
    (snap : DatasetRiskHistory)
    (h : track_dataset_risk now db = (some (TrackResult.snapshot snap), db2)) :
    snap.smoothed_score = none ∧ snap.alpha = none ∧
      snap.delta_score = none ∧ snap.accel_score = none := by
  have h2 := track_snapshot_inv now db db2 snap h
  exact ⟨h2.2.1, h2.2.2.1, h2.2.2.2.1, h2.2.2.2.2⟩

/-- C1 counterexample: on `dbC2` no prior snapshot exists and the computed
score is 27, yet the inserted snapshot's `smoothed_score` is NULL, not 27 —
refuting "when no prior snapshot exists, Sn.smoothed_score equals Sn.score". -/
theorem C1_counterexample :
    dbC2.risk_history = [] ∧
      (track_dataset_risk 0 dbC2).1 = some (TrackResult.snapshot snapC1) ∧
      snapC1.risk_score = 27 ∧
      ¬ snapC1.smoothed_score = some snapC1.risk_score := by
  refine ⟨rfl, by decide, rfl, by decide⟩

/-- C1 witness for the amended claim, at the concrete state `dbC2`. -/
theorem C1_witness :
    snapC1.smoothed_score = none ∧ snapC1.alpha = none ∧
      snapC1.delta_score = none ∧ snapC1.accel_score = none :=
  C1_track_leaves_smoothing_null 0 dbC2 dbC1after snapC1 (by decide)

/-- C3: (a) if the freshly computed (score, level) pair equals the immediately
preceding snapshot's, `track_dataset_risk` writes nothing — it returns the
skip indicator and the state (in particular the snapshot history) unchanged;
(b) consequently, when a call inserts a snapshot and the next call computes
the identical pair, the second call is a skip, leaving exactly the one new
row for that pair in the history. -/
theorem C3_snapshot_suppression (now now2 : Int) (db : DB) (res : RiskScoreResult)
    (h : compute_dataset_risk now db = some res) :
    (∀ last, db.risk_history.head? = some last →
       last.risk_score = res.dataset_risk_score → last.risk_level = res.risk_level →
       track_dataset_risk now db =
         (some (TrackResult.skipped res.dataset_risk_score res.risk_level res.breakdown), db))
    ∧ (∀ snap db1 res2, track_dataset_risk now db = (some (TrackResult.snapshot snap), db1) →
        compute_dataset_risk now2 db1 = some res2 →
        res2.dataset_risk_score = snap.risk_score → res2.risk_level = snap.risk_level →
        db1.risk_history = snap :: db.risk_history ∧
          track_dataset_risk now2 db1 =
            (some (TrackResult.skipped res2.dataset_risk_score res2.risk_level res2.breakdown), db1)) := by
  constructor
  · intro last hlast hsc hlv
    unfold track_dataset_risk
    rw [h, hlast]
    simp only [if_pos (And.intro hsc hlv)]
  · intro snap db1 res2 htrack hcomp2 hsc2 hlv2
    have hist := (track_snapshot_inv now db db1 snap htrack).1
    refine ⟨hist, ?_⟩
    unfold track_dataset_risk
    rw [hcomp2]
    have hhead : db1.risk_history.head? = some snap := by rw [hist]; rfl
    rw [hhead]
    simp only [if_pos (And.intro hsc2.symm hlv2.symm)]

/-- C3 witness: skip on `dbC3` (head snapshot already (27, "moderate")), and
insert-then-skip across two consecutive calls starting from `dbC2`. -/
theorem C3_witness :
    (track_dataset_risk 0 dbC3 =
      (some (TrackResult.skipped 27 "moderate"
        { insight_score := 12, stat_score := 15, alert_score := 0, struct_score := 0 }), dbC3))
    ∧ (dbC1after.risk_history = snapC1 :: dbC2.risk_history ∧
       track_dataset_risk 5 dbC1after =
         (some (TrackResult.skipped 27 "moderate"
           { insight_score := 12, stat_score := 15, alert_score := 0, struct_score := 0 }), dbC1after)) := by
  constructor
  · exact (C3_snapshot_suppression 0 0 dbC3 resC2 (by decide)).1 snapC1 (by decide)
      (by decide) (by decide)
  · exact (C3_snapshot_suppression 0 5 dbC2 resC2 (by decide)).2 snapC1 dbC1after resC2
      (by decide) (by decide) (by decide) (by decide)

/-- C4: when a snapshot is inserted with a score jump ≥ `WARN_THRESHOLD (10)`
over the previous snapshot, exactly one "Risk spike detected" alert is
prepended — severity "critical" if the jump is ≥ `CRIT_THRESHOLD (20)`, else
"warning" — unless an identically-titled alert already fired within the
60-minute cooldown, in which case the alert list is unchanged. -/
theorem C4_spike_alert (now : Int) (db : DB) (res : RiskScoreResult)
    (prev : DatasetRiskHistory)
    (h : compute_dataset_risk now db = some res)
    (hprev : db.risk_history.head? = some prev)
    (hdelta : res.dataset_risk_score - prev.risk_score ≥ RISK_SPIKE_WARNING_THRESHOLD) :
    (_risk_spike_cooldown_exists now db = false →
       (track_dataset_risk now db).2.alert_events =
         { rule_id := none
           severity := if res.dataset_risk_score - prev.risk_score ≥ RISK_SPIKE_CRITICAL_THRESHOLD
                       then "critical" else "warning"
           title := "Risk spike detected"
           created_at := now } :: db.alert_events)
    ∧ (_risk_spike_cooldown_exists now db = true →
       (track_dataset_risk now db).2.alert_events = db.alert_events) := by
  have hne : ¬ (prev.risk_score = res.dataset_risk_score ∧ prev.risk_level = res.risk_level) := by
    intro hcon
    have := hcon.1
    simp only [RISK_SPIKE_WARNING_THRESHOLD] at hdelta
    omega
  have hev : spikeEvent now res prev =
      { rule_id := none
        severity := if res.dataset_risk_score - prev.risk_score ≥ RISK_SPIKE_CRITICAL_THRESHOLD
                    then "critical" else "warning"
        title := "Risk spike detected"
        created_at := now } := rfl
  have hcool : _risk_spike_cooldown_exists now (pushSnap now db res)
      = _risk_spike_cooldown_exists now db := rfl
  unfold track_dataset_risk
  rw [h, hprev]
  simp only [if_neg hne]
  unfold trackInsert
  simp only [if_pos hdelta]
  constructor
  · intro hfalse
    rw [hcool, hfalse]
    simp only [Bool.false_eq_true, if_false, ← hev]
    rfl
  · intro htrue
    rw [hcool, htrue]
    rfl

/-- C4 witness: the §8 scenario — prior score 40, fresh score 65, delta 25 ≥
20, no cooldown — yields exactly one critical "Risk spike detected" alert. -/
theorem C4_witness :
    (track_dataset_risk 0 dbC4).2.alert_events =
      [{ rule_id := none, severity := "critical"
         title := "Risk spike detected", created_at := 0 }] := by
  have h := (C4_spike_alert 0 dbC4 resC4 snap40 (by decide) (by decide) (by decide)).1 (by decide)
  simpa using h

end RiskEngine

namespace AnomalyEngine

/-- C5: the anomaly detector is a silent no-op — it returns 0 created events
and leaves the state untouched — whenever (a) fewer than `window + 1`
snapshots exist, or (b) the baseline variance (equivalently the baseline
standard deviation) is zero; being a total function of the state it never
raises to the caller (the source additionally wraps the body in
`try/except: return 0`, and the non-finite-float guards are identically true
on `ℚ`). -/
theorem C5_anomaly_guards (now : Int) (db : DB) (metric : String)
    (window : Int) (z_threshold : ℚ) :
    (db.risk_history.length < window.toNat + 1 →
       detect_latest_zscore_anomaly now db metric window z_threshold = (0, db))
    ∧ (∀ m v, _rolling_baseline (anomalyBaselineVals db window.toNat) = some (m, v) →
       v = 0 →
       detect_latest_zscore_anomaly now db metric window z_threshold = (0, db)) := by
  have hlenrows : (anomalyRows db window.toNat).length ≤ db.risk_history.length := by
    simp [anomalyRows]
  constructor
  · intro hlen
    unfold detect_latest_zscore_anomaly
    split_ifs
    all_goals first
      | rfl
      | (exfalso; omega)
  · intro m v hb hv0
    subst hv0
    unfold detect_latest_zscore_anomaly
    split_ifs
    all_goals try rfl
    all_goals
      cases hg : (anomalyRows db window.toNat).getLast? with
      | none => rfl
      | some latest => first
          | rfl
          | (dsimp only; rw [hb]; simp)

/-- C5 witness: (a) three snapshots with window 20; (b) the §8 scenario — 20
baseline scores all 50 (variance 0) and latest 80 — both give 0 events and an
unchanged state. -/
theorem C5_witness :
    detect_latest_zscore_anomaly 0 dbC5small "risk_score" 20 3 = (0, dbC5small) ∧
      detect_latest_zscore_anomaly 0 dbC5 "risk_score" 20 3 = (0, dbC5) := by
  constructor
  · exact (C5_anomaly_guards 0 dbC5small "risk_score" 20 3).1 (by decide)
  · exact (C5_anomaly_guards 0 dbC5 "risk_score" 20 3).2 (mkRat 50 1) 0 (by decide) rfl

/-- C10: the undocumented parameter guards — `window < 5`, `z_threshold ≤ 0`,
or a metric other than "risk_score" — each make `detect_latest_zscore_anomaly`
return 0 and create no anomaly event.  (The `math.isfinite(z_threshold)` guard
is identically true on `ℚ`, where non-finite floats have no representative.) -/
theorem C10_anomaly_param_guards (now : Int) (db : DB) (metric : String)
    (window : Int) (z_threshold : ℚ)
    (h : window < 5 ∨ z_threshold ≤ 0 ∨ metric ≠ "risk_score") :
    detect_latest_zscore_anomaly now db metric window z_threshold = (0, db) := by
  unfold detect_latest_zscore_anomaly
  rcases h with h | h | h
  · rw [if_pos (Or.inl h)]
  · rw [if_pos (Or.inr h)]
  · by_cases h1 : window < 5 ∨ z_threshold ≤ 0
    · rw [if_pos h1]
    · rw [if_neg h1, if_pos h]

/-- C10 witness: window 3 (< 5) on the 21-snapshot state returns 0 and leaves
the state unchanged. -/
theorem C10_witness :
    detect_latest_zscore_anomaly 0 dbC5 "risk_score" 3 3 = (0, dbC5) :=
  C10_anomaly_param_guards 0 dbC5 "risk_score" 3 3 (Or.inl (by decide))

end AnomalyEngine

namespace AlertEngine

/-- Every registered handler either leaves the state alone with 0 events, or
prepends exactly the one `ruleTriggeredEvent` carrying its own rule id:
THRESHOLD. -/
theorem _handle_threshold_rule_shape (now : Int) (dbi : DB) (rule : AlertRule)
    (ctx : RuleContext) :
    _handle_threshold_rule now dbi rule ctx = (dbi, 0) ∨
      _handle_threshold_rule now dbi rule ctx =
        ({ dbi with alert_events := ruleTriggeredEvent now rule :: dbi.alert_events }, 1) := by
  unfold _handle_threshold_rule
  repeat' first
    | exact Or.inl rfl
    | exact Or.inr rfl
    | split

/-- Handler shape: NULL_RATIO. -/
theorem _handle_null_ratio_rule_shape (now : Int) (dbi : DB) (rule : AlertRule)
    (ctx : RuleContext) :
    _handle_null_ratio_rule now dbi rule ctx = (dbi, 0) ∨
      _handle_null_ratio_rule now dbi rule ctx =
        ({ dbi with alert_events := ruleTriggeredEvent now rule :: dbi.alert_events }, 1) := by
  unfold _handle_null_ratio_rule
  repeat' first
    | exact Or.inl rfl
    | exact Or.inr rfl
    | split

/-- Handler shape: OUTLIER_RATIO. -/
theorem _handle_outlier_ratio_rule_shape (now : Int) (dbi : DB) (rule : AlertRule)
    (ctx : RuleContext) :
    _handle_outlier_ratio_rule now dbi rule ctx = (dbi, 0) ∨
      _handle_outlier_ratio_rule now dbi rule ctx =
        ({ dbi with alert_events := ruleTriggeredEvent now rule :: dbi.alert_events }, 1) := by
  unfold _handle_outlier_ratio_rule
  repeat' first
    | exact Or.inl rfl
    | exact Or.inr rfl
    | split

/-- Handler shape: INSIGHT_PRESENT. -/
theorem _handle_insight_present_rule_shape (now : Int) (dbi : DB) (rule : AlertRule)
    (ctx : RuleContext) :
    _handle_insight_present_rule now dbi rule ctx = (dbi, 0) ∨
      _handle_insight_present_rule now dbi rule ctx =
        ({ dbi with alert_events := ruleTriggeredEvent now rule :: dbi.alert_events }, 1) := by
  unfold _handle_insight_present_rule
  repeat' first
    | exact Or.inl rfl
    | exact Or.inr rfl
    | split

/-- Any handler from the concrete registry returns cleanly and only ever adds
its own rule's event. -/
theorem concrete_handler_ok (name : String) (h : HandlerFn)
    (hH : RULE_HANDLERS name = some h) (now : Int) (dbi : DB) (rule : AlertRule)
    (ctx : RuleContext) :
    h now dbi rule ctx = Except.ok (dbi, 0) ∨
      h now dbi rule ctx =
        Except.ok ({ dbi with alert_events := ruleTriggeredEvent now rule :: dbi.alert_events }, 1) := by
  unfold RULE_HANDLERS at hH
  split at hH <;> simp only [Option.some.injEq, reduceCtorEq] at hH <;> subst hH
  · rcases _handle_threshold_rule_shape now dbi rule ctx with h1 | h1 <;>
      [left; right] <;> rw [← h1]
  · rcases _handle_null_ratio_rule_shape now dbi rule ctx with h1 | h1 <;>
      [left; right] <;> rw [← h1]
  · rcases _handle_outlier_ratio_rule_shape now dbi rule ctx with h1 | h1 <;>
      [left; right] <;> rw [← h1]
  · rcases _handle_insight_present_rule_shape now dbi rule ctx with h1 | h1 <;>
      [left; right] <;> rw [← h1]

/-- One loop step bumps exactly one of the unsupported/skipped/evaluated
counters. -/
theorem evalRuleStep_counts (handlers : String → Option HandlerFn) (now : Int)
    (ctx : RuleContext) (s : AlertEvalSummary) (dbi : DB) (q : AlertRule) :
    (evalRuleStep handlers now ctx (s, dbi) q).1.unsupported_rules
      + (evalRuleStep handlers now ctx (s, dbi) q).1.skipped_rules
      + (evalRuleStep handlers now ctx (s, dbi) q).1.evaluated_rules
    = s.unsupported_rules + s.skipped_rules + s.evaluated_rules + 1 := by
  unfold evalRuleStep
  cases handlers q.rule_type with
  | none =>
    simp only
    omega
  | some h =>
    dsimp only
    split_ifs with hcd
    · simp only
      omega
    · cases h now dbi q ctx with
      | error e =>
        simp only
        omega
      | ok p =>
        cases p with
        | mk db2 created =>
          dsimp only
          split_ifs <;> simp only <;> omega

/-- The loop counts every rule it folds over. -/
theorem foldl_counts (handlers : String → Option HandlerFn) (now : Int)
    (ctx : RuleContext) (rules : List AlertRule) :
    ∀ (s : AlertEvalSummary) (dbi : DB),
      (rules.foldl (evalRuleStep handlers now ctx) (s, dbi)).1.unsupported_rules
        + (rules.foldl (evalRuleStep handlers now ctx) (s, dbi)).1.skipped_rules
        + (rules.foldl (evalRuleStep handlers now ctx) (s, dbi)).1.evaluated_rules
      = s.unsupported_rules + s.skipped_rules + s.evaluated_rules + rules.length := by
  induction rules with
  | nil => intro s dbi; simp
  | cons q qs ih =>
    intro s dbi
    rw [List.foldl_cons]
    have hstep := evalRuleStep_counts handlers now ctx s dbi q
    cases hacc : evalRuleStep handlers now ctx (s, dbi) q with
    | mk s1 db1 =>
      rw [hacc] at hstep
      simp only at hstep
      have hrest := ih s1 db1
      simp only [List.length_cons]
      omega

/-- C7: with the dataset present, rule evaluation (for an arbitrary handler
registry, handlers being free to raise) always returns a summary accounting
for every enabled rule — unsupported + skipped + evaluated = number of enabled
rules — and a raising handler is swallowed by the loop step: it is counted as
evaluated and `no_signal`, the state is left unchanged, and the fold proceeds
with the remaining rules by construction. -/
theorem C7_eval_never_propagates (handlers : String → Option HandlerFn)
    (now : Int) (db : DB) (d : Dataset) (hds : db.dataset = some d) :
    ((evaluate_alerts_core handlers now db).1.unsupported_rules
      + (evaluate_alerts_core handlers now db).1.skipped_rules
      + (evaluate_alerts_core handlers now db).1.evaluated_rules
      = (enabledRules db).length)
    ∧ (∀ (ctx : RuleContext) (s : AlertEvalSummary) (db1 : DB) (rule : AlertRule)
        (h : HandlerFn), handlers rule.rule_type = some h →
        _cooldown_exists now db1 rule.id = false →
        h now db1 rule ctx = Except.error () →
        evalRuleStep handlers now ctx (s, db1) rule =
          ({ s with
              evaluated_rules := s.evaluated_rules + 1
              no_signal_rules := s.no_signal_rules + 1 }, db1)) := by
  constructor
  · unfold evaluate_alerts_core
    rw [hds]
    by_cases hemp : (enabledRules db).isEmpty
    · rw [if_pos hemp]
      rw [List.isEmpty_iff] at hemp
      simp [initSummary, hemp]
    · rw [if_neg hemp]
      have := foldl_counts handlers now (mkRuleContext db d) (enabledRules db) initSummary db
      simpa [initSummary] using this
  · intro ctx s db1 rule h hH hcd herr
    unfold evalRuleStep
    rw [hH]
    dsimp only
    rw [if_neg (by simp [hcd]), herr]

/-- C7 witness: on three enabled rules — one clean, one raising, one of
unknown type — the summary covers all three, and the raising rule's step is
counted as no_signal with the state unchanged. -/
theorem C7_witness :
    ((evaluate_alerts_core failingHandlers 0 dbC7).1.unsupported_rules
      + (evaluate_alerts_core failingHandlers 0 dbC7).1.skipped_rules
      + (evaluate_alerts_core failingHandlers 0 dbC7).1.evaluated_rules
      = (enabledRules dbC7).length)
    ∧ (evalRuleStep failingHandlers 0 ctxC7 (initSummary, dbC7) ruleC7fail =
        ({ initSummary with evaluated_rules := 1, no_signal_rules := 1 }, dbC7)) := by
  have h := C7_eval_never_propagates failingHandlers 0 dbC7 { row_count := 100 } rfl
  exact ⟨h.1, h.2 ctxC7 initSummary dbC7 ruleC7fail failingHandler rfl (by decide) rfl⟩

/-- One step of the concrete engine: the database only ever grows by events of
the stepped rule, and the skipped counter never decreases. -/
theorem evalRuleStep_shape (now : Int) (ctx : RuleContext) (s : AlertEvalSummary)
    (dbi : DB) (q : AlertRule) :
    ∃ pre : List AlertEvent,
      (evalRuleStep RULE_HANDLERS now ctx (s, dbi) q).2 =
        { dbi with alert_events := pre ++ dbi.alert_events } ∧
      (∀ e ∈ pre, e.rule_id = some q.id) ∧
      s.skipped_rules ≤ (evalRuleStep RULE_HANDLERS now ctx (s, dbi) q).1.skipped_rules := by
  unfold evalRuleStep
  cases hH : RULE_HANDLERS q.rule_type with
  | none => exact ⟨[], rfl, by simp, by simp⟩
  | some h =>
    dsimp only
    split_ifs with hcd
    · exact ⟨[], rfl, by simp, by simp⟩
    · rcases concrete_handler_ok _ h hH now dbi q ctx with hok | hok <;> rw [hok] <;> dsimp only
      · rw [if_pos rfl]
        exact ⟨[], rfl, by simp, by simp⟩
      · rw [if_neg (by omega)]
        refine ⟨[ruleTriggeredEvent now q], rfl, ?_, by simp⟩
        intro e he
        simp only [List.mem_singleton] at he
        subst he
        rfl

/-- Folding the concrete engine over rules whose ids all differ from `rid`
adds no event carrying `rid` and never decreases the skipped counter. -/
theorem foldl_no_new_events (now : Int) (ctx : RuleContext) (rid : Nat)
    (rules : List AlertRule) :
    ∀ (s : AlertEvalSummary) (dbi : DB), (∀ q ∈ rules, q.id ≠ rid) →
      ∃ pre : List AlertEvent,
        (rules.foldl (evalRuleStep RULE_HANDLERS now ctx) (s, dbi)).2 =
          { dbi with alert_events := pre ++ dbi.alert_events } ∧
        (∀ e ∈ pre, e.rule_id ≠ some rid) ∧
        s.skipped_rules ≤
          (rules.foldl (evalRuleStep RULE_HANDLERS now ctx) (s, dbi)).1.skipped_rules := by
  induction rules with
  | nil => intro s dbi _; exact ⟨[], rfl, by simp, le_refl _⟩
  | cons q qs ih =>
    intro s dbi hqs
    rw [List.foldl_cons]
    obtain ⟨pre1, hdb1, hpre1, hsk1⟩ := evalRuleStep_shape now ctx s dbi q
    cases hacc : evalRuleStep RULE_HANDLERS now ctx (s, dbi) q with
    | mk s1 db1 =>
      rw [hacc] at hdb1 hsk1
      simp only at hdb1 hsk1
      obtain ⟨pre2, hdb2, hpre2, hsk2⟩ :=
        ih s1 db1 (fun q' hq' => hqs q' (List.mem_cons_of_mem _ hq'))
      refine ⟨pre2 ++ pre1, ?_, ?_, le_trans hsk1 hsk2⟩
      · rw [hdb2, hdb1]
        simp [List.append_assoc]
      · intro e he
        rcases List.mem_append.mp he with hm | hm
        · exact hpre2 e hm
        · have hid := hpre1 e hm
          intro hcon
          apply hqs q (List.mem_cons_self _ _)
          rw [hid] at hcon
          exact Option.some.inj hcon

/-- A step on a rule whose cooldown query succeeds only bumps the skipped
counter. -/
theorem evalRuleStep_skip (now : Int) (ctx : RuleContext) (s : AlertEvalSummary)
    (dbi : DB) (q : AlertRule) (h : HandlerFn)
    (hH : RULE_HANDLERS q.rule_type = some h)
    (hcd : _cooldown_exists now dbi q.id = true) :
    evalRuleStep RULE_HANDLERS now ctx (s, dbi) q =
      ({ s with skipped_rules := s.skipped_rules + 1 }, dbi) := by
  unfold evalRuleStep
  rw [hH]
  dsimp only
  rw [if_pos hcd]

/-- An event inside the cooldown window keeps the cooldown query true under
any growth of the event list. -/
theorem cooldown_mono (now : Int) (rid : Nat) (dbi : DB) (pre : List AlertEvent)
    (e : AlertEvent) (he : e ∈ dbi.alert_events) (hrid : e.rule_id = some rid)
    (ht : now - _COOLDOWN_MINUTES ≤ e.created_at) :
    _cooldown_exists now { dbi with alert_events := pre ++ dbi.alert_events } rid = true := by
  unfold _cooldown_exists
  simp only [List.any_eq_true]
  refine ⟨e, List.mem_append.mpr (Or.inr he), ?_⟩
  simp [hrid, ht]

/-- C6: for an enabled rule of a registered type whose exact rule already has
an alert event inside the 10-minute cooldown window, a full evaluation adds no
event for that rule (its filtered event list is unchanged) and counts at least
one skip.  Rule ids are unique (primary keys), stated as the `Nodup`
hypothesis. -/
theorem C6_cooldown_rule_skipped (now : Int) (db : DB) (d : Dataset)
    (r : AlertRule) (h : HandlerFn) (e : AlertEvent)
    (hds : db.dataset = some d)
    (hmem : r ∈ db.alert_rules) (hen : r.is_enabled = true)
    (hids : (db.alert_rules.map (fun q => q.id)).Nodup)
    (hH : RULE_HANDLERS r.rule_type = some h)
    (he : e ∈ db.alert_events) (hrid : e.rule_id = some r.id)
    (ht : now - _COOLDOWN_MINUTES ≤ e.created_at) :
    (evaluate_alerts_for_dataset now db).2.alert_events.filter
        (fun ev => ev.rule_id == some r.id)
      = db.alert_events.filter (fun ev => ev.rule_id == some r.id)
    ∧ 1 ≤ (evaluate_alerts_for_dataset now db).1.skipped_rules := by
  have hmemE : r ∈ enabledRules db := List.mem_filter.mpr ⟨hmem, by simp [hen]⟩
  obtain ⟨l1, l2, hsplit⟩ := List.append_of_mem hmemE
  have hidsE : ((enabledRules db).map (fun q => q.id)).Nodup :=
    List.Nodup.sublist ((List.filter_sublist _).map _) hids
  rw [hsplit] at hidsE
  simp only [List.map_append, List.map_cons, List.nodup_append] at hidsE
  have hl1 : ∀ q ∈ l1, q.id ≠ r.id := by
    intro q hq hqr
    exact (hidsE.2.2 (List.mem_map_of_mem _ hq)) (by simp [hqr])
  have hl2 : ∀ q ∈ l2, q.id ≠ r.id := by
    intro q hq hqr
    have := (List.nodup_cons.mp hidsE.2.1).1
    exact this (by simpa [hqr] using List.mem_map_of_mem (fun q => q.id) hq)
  have hne : ¬ (enabledRules db).isEmpty := by
    rw [hsplit]
    simp
  unfold evaluate_alerts_for_dataset evaluate_alerts_core
  rw [if_neg hne, hds]
  dsimp only
  rw [hsplit, List.foldl_append]
  obtain ⟨pre1, hdb1, hpre1, hsk1⟩ :=
    foldl_no_new_events now (mkRuleContext db d) r.id l1 initSummary db hl1
  cases hacc1 : l1.foldl (evalRuleStep RULE_HANDLERS now (mkRuleContext db d))
      (initSummary, db) with
  | mk s1 db1 =>
    rw [hacc1] at hdb1 hsk1
    simp only at hdb1 hsk1
    rw [List.foldl_cons]
    have hcd : _cooldown_exists now db1 r.id = true := by
      rw [hdb1]
      exact cooldown_mono now r.id db pre1 e he hrid ht
    rw [evalRuleStep_skip now (mkRuleContext db d) s1 db1 r h hH hcd]
    obtain ⟨pre2, hdb2, hpre2, hsk2⟩ :=
      foldl_no_new_events now (mkRuleContext db d) r.id l2
        { s1 with skipped_rules := s1.skipped_rules + 1 } db1 hl2
    constructor
    · rw [hdb2, hdb1]
      simp only [List.filter_append]
      have hp2 : pre2.filter (fun ev => ev.rule_id == some r.id) = [] := by
        rw [List.filter_eq_nil_iff]
        intro e2 he2
        simp [hpre2 e2 he2]
      have hp1 : pre1.filter (fun ev => ev.rule_id == some r.id) = [] := by
        rw [List.filter_eq_nil_iff]
        intro e1 he1
        simp [hpre1 e1 he1]
      simp [hp1, hp2]
    · calc 1 ≤ s1.skipped_rules + 1 := by omega
        _ ≤ _ := hsk2

/-- C6 witness: one enabled THRESHOLD rule whose event fired 5 minutes ago —
the evaluation leaves the event list unchanged and reports one skipped rule. -/
theorem C6_witness :
    (evaluate_alerts_for_dataset 0 dbC6).2.alert_events.filter
        (fun ev => ev.rule_id == some ruleC6.id)
      = dbC6.alert_events.filter (fun ev => ev.rule_id == some ruleC6.id)
    ∧ 1 ≤ (evaluate_alerts_for_dataset 0 dbC6).1.skipped_rules := by
  exact C6_cooldown_rule_skipped 0 dbC6 { row_count := 100 } ruleC6
    (fun now db rule ctx => Except.ok (_handle_threshold_rule now db rule ctx)) evC6
    rfl (by simp [dbC6]) rfl (by simp [dbC6, ruleC6]) rfl (by simp [dbC6, evC6])
    rfl (by decide)

end AlertEngine

namespace InsightsEngine

/-- Everything `nullRatioBlock` emits is a HIGH_NULL_RATIO insight. -/
theorem nullRatioBlock_code (rc : Int) (c : DatasetColumn) (i : DatasetInsight)
    (h : i ∈ nullRatioBlock rc c) : i.code = "HIGH_NULL_RATIO" := by
  unfold nullRatioBlock at h
  split at h
  · obtain ⟨rfl, -⟩ := mem_ite_singleton h
    rfl
  · exact absurd h (List.not_mem_nil _)

/-- Everything `constantColumnBlock` emits is a CONSTANT_COLUMN insight. -/
theorem constantColumnBlock_code (rc : Int) (c : DatasetColumn) (i : DatasetInsight)
    (h : i ∈ constantColumnBlock rc c) : i.code = "CONSTANT_COLUMN" := by
  unfold constantColumnBlock at h
  obtain ⟨rfl, -⟩ := mem_ite_singleton h
  rfl

/-- Everything `numAsStrBlock` emits is a POTENTIAL_NUMERIC_AS_STRING
insight. -/
theorem numAsStrBlock_code (pr : List Row) (c : DatasetColumn) (i : DatasetInsight)
    (h : i ∈ numAsStrBlock pr c) : i.code = "POTENTIAL_NUMERIC_AS_STRING" := by
  unfold numAsStrBlock at h
  obtain ⟨rfl, -⟩ := mem_ite_singleton h
  rfl

/-- Inversion of `lowCardBlock`: its one insight carries the column id and
all its gates, including the numeric-as-string exclusion. -/
theorem lowCardBlock_mem (rc : Int) (pr : List Row) (c : DatasetColumn)
    (i : DatasetInsight) (h : i ∈ lowCardBlock rc pr c) :
    i.column_id = some c.id ∧ i.code = "LOW_CARDINALITY" ∧ 0 < rc ∧
      numericAsStringFlag pr c = false ∧ _is_categorical_dtype c.dtype = true ∧
      _is_date_like_name c.name = false ∧ 1 < c.distinct_count ∧
      c.distinct_count ≤ 5 := by
  unfold lowCardBlock at h
  split at h
  · rename_i h1
    obtain ⟨rfl, h2⟩ := mem_ite_singleton h
    exact ⟨rfl, rfl, h1.1, h1.2, h2.1, h2.2.1, h2.2.2.1, h2.2.2.2⟩
  · exact absurd h (List.not_mem_nil _)

/-- Inversion of `highCardBlock`: its one insight carries the column id and
its gates — no numeric-as-string condition among them. -/
theorem highCardBlock_mem (rc : Int) (c : DatasetColumn) (i : DatasetInsight)
    (h : i ∈ highCardBlock rc c) :
    i.column_id = some c.id ∧ i.code = "HIGH_CARDINALITY" ∧
      _is_categorical_dtype c.dtype = true ∧ _is_date_like_name c.name = false ∧
      50 ≤ rc ∧ 50 ≤ c.distinct_count ∧
      mkRat 1 2 ≤ ratDiv (mkRat c.distinct_count 1) (mkRat rc 1) := by
  unfold highCardBlock at h
  split at h
  · rename_i h1
    obtain ⟨rfl, h2⟩ := mem_ite_singleton h
    exact ⟨rfl, rfl, h1.2.1, h1.2.2, h2.1, h2.2.1, h2.2.2⟩
  · exact absurd h (List.not_mem_nil _)

/-- Inversion of `likelyIdBlock`. -/
theorem likelyIdBlock_mem (rc : Int) (c : DatasetColumn) (i : DatasetInsight)
    (h : i ∈ likelyIdBlock rc c) :
    i.column_id = some c.id ∧ i.code = "LIKELY_IDENTIFIER" ∧
      _is_categorical_dtype c.dtype = true ∧ _is_date_like_name c.name = false ∧
      50 ≤ rc ∧ 50 ≤ c.distinct_count ∧
      mkRat 19 20 ≤ ratDiv (mkRat c.distinct_count 1) (mkRat rc 1) := by
  unfold likelyIdBlock at h
  split at h
  · rename_i h1
    obtain ⟨rfl, h2⟩ := mem_ite_singleton h
    exact ⟨rfl, rfl, h1.2.1, h1.2.2, h2.1, h2.2.1, h2.2.2⟩
  · exact absurd h (List.not_mem_nil _)

/-- Everything `dateBlock` emits is one of the three date-quality codes. -/
theorem dateBlock_code (pd : String → Option Int) (df : String → Option String)
    (now : Int) (pr : List Row) (c : DatasetColumn) (i : DatasetInsight)
    (h : i ∈ dateBlock pd df now pr c) :
    i.code = "DATE_PARSE_FAILURE" ∨ i.code = "MIXED_DATE_FORMATS" ∨
      i.code = "FUTURE_DATES_IN_PREVIEW" := by
  unfold dateBlock at h
  split at h
  · split at h
    · rcases List.mem_append.mp h with h | h
      · rcases List.mem_append.mp h with h | h
        · obtain ⟨rfl, -⟩ := mem_ite_singleton h
          exact Or.inl rfl
        · obtain ⟨rfl, -⟩ := mem_ite_singleton h
          exact Or.inr (Or.inl rfl)
      · obtain ⟨rfl, -⟩ := mem_ite_singleton h
        exact Or.inr (Or.inr rfl)
    · exact absurd h (List.not_mem_nil _)
  · exact absurd h (List.not_mem_nil _)

/-- Everything `statsBlock` emits is one of the three statistics codes. -/
theorem statsBlock_code (rc : Int) (stats : List ColumnStatistics)
    (c : DatasetColumn) (i : DatasetInsight) (h : i ∈ statsBlock rc stats c) :
    i.code = "OUTLIERS_DETECTED" ∨ i.code = "SKEWED_DISTRIBUTION" ∨
      i.code = "NUMERIC_RANGE_SUSPICIOUS" := by
  unfold statsBlock at h
  cases hf : stats.find? (fun s => s.column_id == c.id) with
  | none =>
    rw [hf] at h
    exact absurd h (List.not_mem_nil _)
  | some st =>
    rw [hf] at h
    dsimp only at h
    rcases List.mem_append.mp h with h | h
    · rcases List.mem_append.mp h with h | h
      · cases ho : st.outlier_ratio with
        | none => rw [ho] at h; exact absurd h (List.not_mem_nil _)
        | some orr =>
          rw [ho] at h
          dsimp only at h
          obtain ⟨rfl, -⟩ := mem_ite_singleton h
          exact Or.inl rfl
      · cases hs : st.skewness with
        | none => rw [hs] at h; exact absurd h (List.not_mem_nil _)
        | some sk =>
          rw [hs] at h
          dsimp only at h
          split at h
          · split at h
            · have := List.mem_singleton.mp h
              subst this
              exact Or.inr (Or.inl rfl)
            · split at h
              · have := List.mem_singleton.mp h
                subst this
                exact Or.inr (Or.inl rfl)
              · exact absurd h (List.not_mem_nil _)
          · exact absurd h (List.not_mem_nil _)
    · cases hmn : st.min with
      | none =>
        rw [hmn] at h
        dsimp only at h
        exact absurd h (List.not_mem_nil _)
      | some mn =>
        cases hmx : st.max with
        | none =>
          rw [hmn, hmx] at h
          dsimp only at h
          exact absurd h (List.not_mem_nil _)
        | some mx =>
          rw [hmn, hmx] at h
          dsimp only at h
          split at h
          · have := List.mem_singleton.mp h
            subst this
            exact Or.inr (Or.inr rfl)
          · split at h
            · have := List.mem_singleton.mp h
              subst this
              exact Or.inr (Or.inr rfl)
            · exact absurd h (List.not_mem_nil _)

/-- Everything `duplicateRowsBlock` emits is a DUPLICATE_ROWS_IN_PREVIEW
insight. -/
theorem duplicateRowsBlock_code (pr : List Row) (i : DatasetInsight)
    (h : i ∈ duplicateRowsBlock pr) : i.code = "DUPLICATE_ROWS_IN_PREVIEW" := by
  unfold duplicateRowsBlock at h
  split at h
  · obtain ⟨rfl, -⟩ := mem_ite_singleton h
    rfl
  · exact absurd h (List.not_mem_nil _)

/-- Everything `emptyPreviewBlock` emits is an EMPTY_PREVIEW insight. -/
theorem emptyPreviewBlock_code (pr : List Row) (i : DatasetInsight)
    (h : i ∈ emptyPreviewBlock pr) : i.code = "EMPTY_PREVIEW" := by
  unfold emptyPreviewBlock at h
  obtain ⟨rfl, -⟩ := mem_ite_singleton h
  rfl

/-- Membership in the per-column list decomposes into the eight rule
blocks. -/
theorem columnInsights_mem_cases (pd : String → Option Int)
    (df : String → Option String) (now rc : Int) (pr : List Row)
    (stats : List ColumnStatistics) (c : DatasetColumn) (i : DatasetInsight)
    (h : i ∈ columnInsights pd df now rc pr stats c) :
    i ∈ nullRatioBlock rc c ∨ i ∈ constantColumnBlock rc c ∨
      i ∈ numAsStrBlock pr c ∨ i ∈ lowCardBlock rc pr c ∨
      i ∈ highCardBlock rc c ∨ i ∈ likelyIdBlock rc c ∨
      i ∈ dateBlock pd df now pr c ∨ i ∈ statsBlock rc stats c := by
  unfold columnInsights at h
  simp only [List.mem_append] at h
  tauto

/-- C8 (amended): the LOW_CARDINALITY insight is emitted only for
categorical-typed, non-date-named columns that were NOT flagged
numeric-as-string (with 1 < distinct ≤ 5); HIGH_CARDINALITY and
LIKELY_IDENTIFIER are emitted only for categorical-typed, non-date-named
columns satisfying row_count ≥ 50, distinct ≥ 50 and distinct/row ratio
≥ 0.5 (resp. ≥ 0.95) — but with NO numeric-as-string condition: the source
checks `numeric_as_string_detected` only in the LOW_CARDINALITY branch. -/
theorem C8_cardinality_gates (pd : String → Option Int)
    (df : String → Option String) (now : Int) (db : DB) (d : Dataset)
    (i : DatasetInsight) (hds : db.dataset = some d)
    (hi : i ∈ (refresh_insights pd df now db).2) :
    (i.code = "LOW_CARDINALITY" → ∃ c ∈ db.columns, i.column_id = some c.id ∧
       _is_categorical_dtype c.dtype = true ∧ _is_date_like_name c.name = false ∧
       numericAsStringFlag (previewRowsOf db) c = false ∧
       1 < c.distinct_count ∧ c.distinct_count ≤ 5)
    ∧ (i.code = "HIGH_CARDINALITY" → ∃ c ∈ db.columns, i.column_id = some c.id ∧
       _is_categorical_dtype c.dtype = true ∧ _is_date_like_name c.name = false ∧
       50 ≤ pyMax d.row_count 0 ∧ 50 ≤ c.distinct_count ∧
       mkRat 1 2 ≤ ratDiv (mkRat c.distinct_count 1) (mkRat (pyMax d.row_count 0) 1))
    ∧ (i.code = "LIKELY_IDENTIFIER" → ∃ c ∈ db.columns, i.column_id = some c.id ∧
       _is_categorical_dtype c.dtype = true ∧ _is_date_like_name c.name = false ∧
       50 ≤ pyMax d.row_count 0 ∧ 50 ≤ c.distinct_count ∧
       mkRat 19 20 ≤ ratDiv (mkRat c.distinct_count 1) (mkRat (pyMax d.row_count 0) 1)) := by
  unfold refresh_insights at hi
  rw [hds] at hi
  dsimp only at hi
  unfold refreshedInsights computeInsights at hi
  simp only [List.mem_append, List.mem_flatMap] at hi
  refine ⟨?_, ?_, ?_⟩ <;> intro hc
  · rcases hi with (hdup | hemp) | ⟨c, hcmem, hcol⟩
    · have := duplicateRowsBlock_code _ _ hdup
      rw [hc] at this
      exact absurd this (by decide)
    · have := emptyPreviewBlock_code _ _ hemp
      rw [hc] at this
      exact absurd this (by decide)
    · rcases columnInsights_mem_cases _ _ _ _ _ _ _ _ hcol with
        hb | hb | hb | hb | hb | hb | hb | hb
      · have := nullRatioBlock_code _ _ _ hb
        rw [hc] at this
        exact absurd this (by decide)
      · have := constantColumnBlock_code _ _ _ hb
        rw [hc] at this
        exact absurd this (by decide)
      · have := numAsStrBlock_code _ _ _ hb
        rw [hc] at this
        exact absurd this (by decide)
      · obtain ⟨h1, h2, h3, h4, h5, h6, h7, h8⟩ := lowCardBlock_mem _ _ _ _ hb
        exact ⟨c, hcmem, h1, h5, h6, h4, h7, h8⟩
      · obtain ⟨-, h2, -⟩ := highCardBlock_mem _ _ _ hb
        rw [hc] at h2
        exact absurd h2 (by decide)
      · obtain ⟨-, h2, -⟩ := likelyIdBlock_mem _ _ _ hb
        rw [hc] at h2
        exact absurd h2 (by decide)
      · rcases dateBlock_code _ _ _ _ _ _ hb with h2 | h2 | h2 <;> rw [hc] at h2 <;>
          exact absurd h2 (by decide)
      · rcases statsBlock_code _ _ _ _ hb with h2 | h2 | h2 <;> rw [hc] at h2 <;>
          exact absurd h2 (by decide)
  · rcases hi with (hdup | hemp) | ⟨c, hcmem, hcol⟩
    · have := duplicateRowsBlock_code _ _ hdup
      rw [hc] at this
      exact absurd this (by decide)
    · have := emptyPreviewBlock_code _ _ hemp
      rw [hc] at this
      exact absurd this (by decide)
    · rcases columnInsights_mem_cases _ _ _ _ _ _ _ _ hcol with
        hb | hb | hb | hb | hb | hb | hb | hb
      · have := nullRatioBlock_code _ _ _ hb
        rw [hc] at this
        exact absurd this (by decide)
      · have := constantColumnBlock_code _ _ _ hb
        rw [hc] at this
        exact absurd this (by decide)
      · have := numAsStrBlock_code _ _ _ hb
        rw [hc] at this
        exact absurd this (by decide)
      · obtain ⟨-, h2, -⟩ := lowCardBlock_mem _ _ _ _ hb
        rw [hc] at h2
        exact absurd h2 (by decide)
      · obtain ⟨h1, h2, h3, h4, h5, h6, h7⟩ := highCardBlock_mem _ _ _ hb
        exact ⟨c, hcmem, h1, h3, h4, h5, h6, h7⟩
      · obtain ⟨-, h2, -⟩ := likelyIdBlock_mem _ _ _ hb
        rw [hc] at h2
        exact absurd h2 (by decide)
      · rcases dateBlock_code _ _ _ _ _ _ hb with h2 | h2 | h2 <;> rw [hc] at h2 <;>
          exact absurd h2 (by decide)
      · rcases statsBlock_code _ _ _ _ hb with h2 | h2 | h2 <;> rw [hc] at h2 <;>
          exact absurd h2 (by decide)
  · rcases hi with (hdup | hemp) | ⟨c, hcmem, hcol⟩
    · have := duplicateRowsBlock_code _ _ hdup
      rw [hc] at this
      exact absurd this (by decide)
    · have := emptyPreviewBlock_code _ _ hemp
      rw [hc] at this
      exact absurd this (by decide)
    · rcases columnInsights_mem_cases _ _ _ _ _ _ _ _ hcol with
        hb | hb | hb | hb | hb | hb | hb | hb
      · have := nullRatioBlock_code _ _ _ hb
        rw [hc] at this
        exact absurd this (by decide)
      · have := constantColumnBlock_code _ _ _ hb
        rw [hc] at this
        exact absurd this (by decide)
      · have := numAsStrBlock_code _ _ _ hb
        rw [hc] at this
        exact absurd this (by decide)
      · obtain ⟨-, h2, -⟩ := lowCardBlock_mem _ _ _ _ hb
        rw [hc] at h2
        exact absurd h2 (by decide)
      · obtain ⟨-, h2, -⟩ := highCardBlock_mem _ _ _ hb
        rw [hc] at h2
        exact absurd h2 (by decide)
      · obtain ⟨h1, h2, h3, h4, h5, h6, h7⟩ := likelyIdBlock_mem _ _ _ hb
        exact ⟨c, hcmem, h1, h3, h4, h5, h6, h7⟩
      · rcases dateBlock_code _ _ _ _ _ _ hb with h2 | h2 | h2 <;> rw [hc] at h2 <;>
          exact absurd h2 (by decide)
      · rcases statsBlock_code _ _ _ _ hb with h2 | h2 | h2 <;> rw [hc] at h2 <;>
          exact absurd h2 (by decide)

/-- C8 counterexample: on `dbC8` the "code" column IS flagged numeric-as-
string (its `POTENTIAL_NUMERIC_AS_STRING` insight is emitted), and
HIGH_CARDINALITY and LIKELY_IDENTIFIER are nevertheless emitted for it —
refuting "emitted only … when the column was not flagged as
numeric-as-string" for those two codes. -/
theorem C8_counterexample :
    numericAsStringFlag (previewRowsOf dbC8) colC8 = true ∧
      (refresh_insights (fun _ => none) (fun _ => none) 0 dbC8).2 =
        [mkInsight (some 3) "warning" "POTENTIAL_NUMERIC_AS_STRING"
           "Numeric values stored as text",
         mkInsight (some 3) "warning" "HIGH_CARDINALITY"
           "High cardinality categorical column",
         mkInsight (some 3) "warning" "LIKELY_IDENTIFIER"
           "Likely identifier column"] := by
  exact ⟨by decide, by decide⟩

/-- C8 witness for the amended claim, at the HIGH_CARDINALITY insight the
refresh emits on `dbC8`. -/
theorem C8_witness :
    ∃ c ∈ dbC8.columns,
      (mkInsight (some 3) "warning" "HIGH_CARDINALITY"
        "High cardinality categorical column").column_id = some c.id ∧
      _is_categorical_dtype c.dtype = true ∧ _is_date_like_name c.name = false ∧
      50 ≤ pyMax (100 : Int) 0 ∧ 50 ≤ c.distinct_count ∧
      mkRat 1 2 ≤ ratDiv (mkRat c.distinct_count 1) (mkRat (pyMax (100 : Int) 0) 1) := by
  have hmem : (mkInsight (some 3) "warning" "HIGH_CARDINALITY"
      "High cardinality categorical column")
      ∈ (refresh_insights (fun _ => none) (fun _ => none) 0 dbC8).2 := by
    have hout : (refresh_insights (fun _ => none) (fun _ => none) 0 dbC8).2 =
        [mkInsight (some 3) "warning" "POTENTIAL_NUMERIC_AS_STRING"
           "Numeric values stored as text",
         mkInsight (some 3) "warning" "HIGH_CARDINALITY"
           "High cardinality categorical column",
         mkInsight (some 3) "warning" "LIKELY_IDENTIFIER"
           "Likely identifier column"] := by decide
    rw [hout]
    simp
  exact (C8_cardinality_gates (fun _ => none) (fun _ => none) 0 dbC8
    { row_count := 100 } _ rfl hmem).2.1 rfl

/-- C9: refreshing twice with unchanged inputs (same dataset, columns,
statistics, preview, clock and parsers) returns the identical insight list —
in particular the same set of codes — and stores the same set, because each
refresh deletes the stored insights and recomputes from inputs the refresh
itself never modifies. -/
theorem C9_refresh_idempotent (pd : String → Option Int)
    (df : String → Option String) (now : Int) (db : DB) :
    (refresh_insights pd df now (refresh_insights pd df now db).1).2
      = (refresh_insights pd df now db).2
    ∧ (refresh_insights pd df now (refresh_insights pd df now db).1).1.insights
      = (refresh_insights pd df now db).1.insights := by
  cases hds : db.dataset with
  | none => simp [refresh_insights, hds]
  | some d => simp [refresh_insights, refreshedInsights, previewRowsOf, hds]

end InsightsEngine

end InsightSentinel
